import Mathlib

/-!
# cef_logging.h: gating, lazy streaming and check helpers

A shallow embedding of `include/base/cef_logging.h` (the branch taken when
neither `DCHECK` nor `BUILDING_CEF_SHARED` is defined).

The header is made of preprocessor definitions whose arguments are C++
expressions with side effects.  An expression of type `α` is embedded as a
function `World → α × World`, a statement as a function `World → World`.  A
definition that takes an expression as argument runs it at the place where
the expansion evaluates it, and does not run it where the expansion does not
evaluate it (`?:` and `&&` evaluate their right operands only on demand,
`if` runs its body only when the condition holds).

C `int` values are embedded as `Int`: the header only compares, negates and
prints them.  Negation wraps modulo 2^32 (`negInt`); it differs from the
negation of `Int` at `INT_MIN` only, where the C++ negation overflows.
-/

namespace cef.logging

/-! ## Build configuration -/

/-- The preprocessor symbols the header tests, and the one choice the compiler
makes that the header's behaviour depends on. -/
structure Build where
  /-- Whether `NDEBUG` is defined. -/
  ndebug : Bool
  /-- Whether `DCHECK_ALWAYS_ON` is defined. -/
  dcheckAlwaysOn : Bool
  /-- Whether `OS_WIN` is defined (otherwise `OS_POSIX` is). -/
  osWin : Bool
  /-- The order in which the two operand expressions of a function call are
  evaluated is unspecified in C++: `true` when the compiler evaluates the
  second operand first. -/
  argsRightToLeft : Bool

/-- Embeds `DCHECK_IS_ON()`, lines 429-433: `0` when `NDEBUG` is defined and
`DCHECK_ALWAYS_ON` is not, `1` otherwise. -/
def DCHECK_IS_ON (b : Build) : Bool :=
  if b.ndebug && !b.dcheckAlwaysOn then false else true

/-! ## Severities (lines 184-199, 486-501) -/

abbrev LogSeverity := Int

def CEF_LOG_VERBOSE : LogSeverity := -1
def CEF_LOG_INFO : LogSeverity := 0
def CEF_LOG_WARNING : LogSeverity := 1
def CEF_LOG_ERROR : LogSeverity := 2
def CEF_LOG_FATAL : LogSeverity := 3
def CEF_LOG_NUM_SEVERITIES : LogSeverity := 4

/-- Embeds `CEF_LOG_DFATAL`, lines 194-199. -/
def CEF_LOG_DFATAL (b : Build) : LogSeverity :=
  if b.ndebug then CEF_LOG_ERROR else CEF_LOG_FATAL

/-- Embeds `CEF_LOG_DCHECK`, lines 486-501. -/
def CEF_LOG_DCHECK (b : Build) : LogSeverity :=
  if DCHECK_IS_ON b then CEF_LOG_FATAL else CEF_LOG_INFO

/-- The severity tokens a call site may write in `CEF_LOG(severity)`: the
token is pasted after `CEF_LOG_` and after `COMPACT_GOOGLE_CEF_LOG_`. -/
inductive SeverityName where
  | INFO
  | WARNING
  | ERROR
  | FATAL
  | DFATAL
  | DCHECK
  deriving DecidableEq, Repr

/-- The constant `CEF_LOG_ ## severity`. -/
def CEF_LOG_ (b : Build) : SeverityName → LogSeverity
  | .INFO => CEF_LOG_INFO
  | .WARNING => CEF_LOG_WARNING
  | .ERROR => CEF_LOG_ERROR
  | .FATAL => CEF_LOG_FATAL
  | .DFATAL => CEF_LOG_DFATAL b
  | .DCHECK => CEF_LOG_DCHECK b

/-! ## Log records and the state of the process -/

/-- A `LogMessage` object (lines 570-616), together with the error code of
the `Win32ErrorLogMessage` / `ErrnoLogMessage` that wraps it (lines 646-686)
when there is one. -/
structure LogMessage where
  severity_ : LogSeverity
  /-- The text in `stream_`. -/
  stream_ : String
  file_ : String
  line_ : Int
  /-- The string handed to the constructors that take a `std::string* result`
  (they take ownership of it). -/
  result : Option String
  /-- The member `SaveLastError last_error_`, present under `OS_WIN` only. -/
  last_error_ : Option Int
  /-- The member `err_` of the wrapping `Win32ErrorLogMessage` / `ErrnoLogMessage`. -/
  err_ : Option Int
  deriving DecidableEq, Repr

/-- What a statement of the header can read or change. -/
structure World where
  /-- What `cef_get_min_log_level()` returns. -/
  minLogLevel : Int
  /-- What `cef_get_vlog_level(file, N)` returns. -/
  vlogLevel : String → Nat → Int
  /-- The platform last-error value (`::GetLastError()` / `errno`). -/
  lastError : Int
  /-- What `SystemErrorCodeToString` returns. -/
  errorText : Int → String
  /-- Counters that the expressions of a call site may increment. -/
  counters : Nat → Nat
  /-- Number of `new std::string` executed by `MakeCheckOpString`. -/
  allocated : Nat
  /-- The log records built so far, oldest first, each as it was when its
  statement ended. -/
  sink : List LogMessage
  /-- Whether the process has been terminated by a fatal record. -/
  terminated : Bool

/-- A C++ expression of type `α`. -/
abbrev Expr (α : Type) := World → α × World

/-- A C++ statement. -/
abbrev Stmt := World → World

/-- An expression streamed into a log record with `<<`: evaluating it yields
the text that stream insertion writes for its value. -/
abbrev StreamArg := Expr String

/-- A string literal, or any other expression without side effects. -/
def lit {α : Type} (v : α) : Expr α := fun w => (v, w)

/-- An expression that increments counter `k` and has value `v`, such as
`(++counter_k, v)`. -/
def bump {α : Type} (k : Nat) (v : α) : Expr α := fun w =>
  (v, { w with counters := Function.update w.counters k (w.counters k + 1) })

/-- The expression `a && (b)`: `b` is evaluated only when `a` is true. -/
def land (a b : Expr Bool) : Expr Bool := fun w =>
  let r := a w
  if r.1 then b r.2 else (false, r.2)

/-- The expression `!(a)`. -/
def lnot (a : Expr Bool) : Expr Bool := fun w =>
  let r := a w
  (!r.1, r.2)

/-- The values of `__FILE__` and `__LINE__` at a call site. -/
structure Site where
  file : String
  line : Int
  deriving DecidableEq, Repr

/-! ## The external queries (lines 172-182, 641-644) -/

/-- Embeds `GetMinLogLevel()`, lines 173-175. -/
def GetMinLogLevel : Expr Int := fun w => (w.minLogLevel, w)

/-- Embeds `GetVlogLevel(file)`, lines 179-182: `N` is the size of the array
`__FILE__`, the terminating null included. -/
def GetVlogLevel (file : String) : Expr Int := fun w =>
  (w.vlogLevel file (file.utf8ByteSize + 1), w)

/-- Embeds `GetLastSystemErrorCode()`, line 643. -/
def GetLastSystemErrorCode : Expr Int := fun w => (w.lastError, w)

/-! ## LogMessage: construction, streaming, destruction -/

/-- Modelled from the spec: the body of `SaveLastError::SaveLastError()` is in
logging.cc; the comment at lines 596-600 says it stores the current value of
GetLastError. It exists under `OS_WIN` only. -/
def SaveLastError (b : Build) (w : World) : Option Int :=
  if b.osWin then some w.lastError else none

/-- Modelled from the spec: `LogMessage(file, line, severity)`, line 573, body
in logging.cc: a record with the given file, line and severity and an empty
text buffer. -/
def LogMessage.new (b : Build) (file : String) (line : Int) (severity : LogSeverity) :
    Expr LogMessage := fun w =>
  ({ severity_ := severity, stream_ := "", file_ := file, line_ := line,
     result := none, last_error_ := SaveLastError b w, err_ := none }, w)

/-- Modelled from the spec: `LogMessage(file, line, severity, result)`, lines
579-581, body in logging.cc: takes ownership of `result`. -/
def LogMessage.newResultAt (b : Build) (file : String) (line : Int) (severity : LogSeverity)
    (result : String) : Expr LogMessage := fun w =>
  ({ severity_ := severity, stream_ := "", file_ := file, line_ := line,
     result := some result, last_error_ := SaveLastError b w, err_ := none }, w)

/-- Modelled from the spec: `LogMessage(file, line, result)`, lines 575-577,
body in logging.cc: "Implied severity = CEF_LOG_FATAL". -/
def LogMessage.newResult (b : Build) (file : String) (line : Int) (result : String) :
    Expr LogMessage :=
  LogMessage.newResultAt b file line CEF_LOG_FATAL result

/-- Modelled from the spec: `Win32ErrorLogMessage` / `ErrnoLogMessage`
constructor, lines 650-653 and 670-673, body in logging.cc: a `LogMessage`
member and the error code `err`. -/
def ErrnoLogMessage.new (b : Build) (file : String) (line : Int) (severity : LogSeverity)
    (err : Int) : Expr LogMessage := fun w =>
  let r := LogMessage.new b file line severity w
  ({ r.1 with err_ := some err }, r.2)

/-- Modelled from the spec: `~LogMessage()` and `~ErrnoLogMessage()` /
`~Win32ErrorLogMessage()`, bodies in logging.cc.  The wrapper "appends the
error message before destructing the encapsulated class"; the record is then
flushed to the sink, once; a record of severity FATAL terminates the process;
under `OS_WIN` the saved last-error value is restored. -/
def LogMessage.destroy (msg : LogMessage) : Stmt := fun w =>
  let text := match msg.err_ with
    | some e => msg.stream_ ++ w.errorText e
    | none => msg.stream_
  { w with
    sink := w.sink ++ [{ msg with stream_ := text }]
    terminated := w.terminated || decide (msg.severity_ = CEF_LOG_FATAL)
    lastError := match msg.last_error_ with
      | some e => e
      | none => w.lastError }

/-- The chain `msg.stream() << e1 << ... << en`: the operands are evaluated and
inserted from left to right (the order of evaluation since C++17; the order
of insertion in every version). -/
def streamArgs : List StreamArg → LogMessage → Expr LogMessage
  | [], msg => fun w => (msg, w)
  | e :: es, msg => fun w =>
    let r := e w
    streamArgs es { msg with stream_ := msg.stream_ ++ r.1 } r.2

/-- The full expression `ctor.stream() << e1 << ... << en`: the temporary is
constructed, streamed into, and destroyed at the end of the full
expression. -/
def streamStmt (ctor : Expr LogMessage) (args : List StreamArg) : Stmt := fun w =>
  let r := ctor w
  let s := streamArgs args r.1 r.2
  LogMessage.destroy s.1 s.2

/-! ## Gates and lazy streaming (lines 245-289) -/

/-- Embeds `COMPACT_GOOGLE_CEF_LOG_EX_ ## severity(ClassName, ...)`, lines 204-218
and 488-497: `ClassName(__FILE__, __LINE__, CEF_LOG_severity, ...)`; the
`DCHECK` form expands to the `FATAL` form when `DCHECK_IS_ON()` and to the
`INFO` form otherwise. -/
def COMPACT_GOOGLE_CEF_LOG_EX_ (b : Build) (site : Site)
    (ClassName : String → Int → LogSeverity → Expr LogMessage) :
    SeverityName → Expr LogMessage
  | .INFO => ClassName site.file site.line CEF_LOG_INFO
  | .WARNING => ClassName site.file site.line CEF_LOG_WARNING
  | .ERROR => ClassName site.file site.line CEF_LOG_ERROR
  | .FATAL => ClassName site.file site.line CEF_LOG_FATAL
  | .DFATAL => ClassName site.file site.line (CEF_LOG_DFATAL b)
  | .DCHECK =>
    if DCHECK_IS_ON b then ClassName site.file site.line CEF_LOG_FATAL
    else ClassName site.file site.line CEF_LOG_INFO

/-- Embeds `COMPACT_GOOGLE_CEF_LOG_ ## severity`, lines 220-229, 490, 498. -/
def COMPACT_GOOGLE_CEF_LOG_ (b : Build) (site : Site) (severity : SeverityName) :
    Expr LogMessage :=
  COMPACT_GOOGLE_CEF_LOG_EX_ b site (LogMessage.new b) severity

/-- Embeds `CEF_LOG_IS_ON(severity)`, lines 248-249. -/
def CEF_LOG_IS_ON (b : Build) (severity : SeverityName) : Expr Bool := fun w =>
  let m := GetMinLogLevel w
  (decide (CEF_LOG_ b severity ≥ m.1), m.2)

/-- The largest `int`. -/
def INT_MAX : Int := 2147483647

/-- The `int` that a 32-bit two's complement machine holds for the
mathematical value `x`. -/
def wrapInt (x : Int) : Int := (x + 2147483648) % 4294967296 - 2147483648

/-- Unary minus on `int`. -/
def negInt (v : Int) : Int := wrapInt (-v)

/-- The level argument of a verbose statement as it is written at the call
site.  The definitions paste its tokens: `(verboselevel)`, in parentheses, in
the gate (line 256), and `-verbose_level`, without parentheses, in the
constructor call (lines 282, 293, 297).  Unary minus binds tighter than every
binary operator, so in `-verbose_level` it applies to the leftmost operand of
the argument only. -/
inductive LevelArg where
  /-- A single operand of value `v`: a literal, a name, a call, a
  parenthesised expression. -/
  | atom (v : Int)
  /-- A binary expression (`l op r`) as the parser reads it: `op` is the
  operator on `int` values, `l` the left operand as written (a left operand
  that stands in parentheses is an `atom`), `r` the value of the right
  operand. -/
  | binop (op : Int → Int → Int) (l : LevelArg) (r : Int)

/-- The value of `(verboselevel)`. -/
def LevelArg.value : LevelArg → Int
  | .atom v => v
  | .binop op l r => op l.value r

/-- The value of `-verbose_level`: the minus sign applies to the leftmost
operand. -/
def LevelArg.negated : LevelArg → Int
  | .atom v => negInt v
  | .binop op l r => op l.negated r

/-- Embeds `VCEF_LOG_IS_ON(verboselevel)`, lines 255-256; `verboselevel` is the value
of `(verboselevel)`, which has no side effects. -/
def VCEF_LOG_IS_ON (site : Site) (verboselevel : Int) : Expr Bool := fun w =>
  let v := GetVlogLevel site.file w
  (decide (verboselevel ≤ v.1), v.2)

/-- Embeds `LAZY_STREAM(stream, condition)`, lines 260-261:
`!(condition) ? (void) 0 : LogMessageVoidify() & (stream)`.  What follows the
expansion at the call site (`<< e1 << ... << en`) binds tighter than `&` and
than `?:`, so it belongs to `stream`. -/
def LAZY_STREAM (stream : Stmt) (condition : Expr Bool) : Stmt := fun w =>
  let r := condition w
  if !r.1 then r.2 else stream r.2

/-- Embeds `CEF_LOG_STREAM(severity) << e1 << ... << en`, line 271. -/
def CEF_LOG_STREAM (b : Build) (site : Site) (severity : SeverityName)
    (args : List StreamArg) : Stmt :=
  streamStmt (COMPACT_GOOGLE_CEF_LOG_ b site severity) args

/-- Embeds `CEF_LOG(severity) << e1 << ... << en`, line 273. -/
def CEF_LOG (b : Build) (site : Site) (severity : SeverityName) (args : List StreamArg) :
    Stmt :=
  LAZY_STREAM (CEF_LOG_STREAM b site severity args) (CEF_LOG_IS_ON b severity)

/-- Embeds `CEF_LOG_IF(severity, condition) << e1 << ... << en`, lines 274-275. -/
def CEF_LOG_IF (b : Build) (site : Site) (severity : SeverityName) (condition : Expr Bool)
    (args : List StreamArg) : Stmt :=
  LAZY_STREAM (CEF_LOG_STREAM b site severity args)
    (land (CEF_LOG_IS_ON b severity) condition)

/-- Embeds `VCEF_LOG_STREAM(verbose_level) << e1 << ... << en`, lines 281-282:
`LogMessage(__FILE__, __LINE__, -verbose_level)`, the argument pasted without
parentheses. -/
def VCEF_LOG_STREAM (b : Build) (site : Site) (verbose_level : LevelArg)
    (args : List StreamArg) : Stmt :=
  streamStmt (LogMessage.new b site.file site.line verbose_level.negated) args

/-- Embeds `VCEF_LOG(verbose_level) << e1 << ... << en`, lines 284-285. -/
def VCEF_LOG (b : Build) (site : Site) (verbose_level : LevelArg) (args : List StreamArg) :
    Stmt :=
  LAZY_STREAM (VCEF_LOG_STREAM b site verbose_level args)
    (VCEF_LOG_IS_ON site verbose_level.value)

/-- Embeds `VCEF_LOG_IF(verbose_level, condition) << e1 << ... << en`, lines
287-289. -/
def VCEF_LOG_IF (b : Build) (site : Site) (verbose_level : LevelArg)
    (condition : Expr Bool) (args : List StreamArg) : Stmt :=
  LAZY_STREAM (VCEF_LOG_STREAM b site verbose_level args)
    (land (VCEF_LOG_IS_ON site verbose_level.value) condition)

/-- Embeds `PCEF_LOG_STREAM(severity) << e1 << ... << en`, lines 315-323: the
constructor argument `GetLastSystemErrorCode()` is evaluated when the record
is constructed. -/
def PCEF_LOG_STREAM (b : Build) (site : Site) (severity : SeverityName)
    (args : List StreamArg) : Stmt :=
  streamStmt
    (fun w =>
      let e := GetLastSystemErrorCode w
      COMPACT_GOOGLE_CEF_LOG_EX_ b site
        (fun file line sev => ErrnoLogMessage.new b file line sev e.1) severity e.2)
    args

/-- Embeds `PCEF_LOG(severity) << e1 << ... << en`, lines 325-326. -/
def PCEF_LOG (b : Build) (site : Site) (severity : SeverityName) (args : List StreamArg) :
    Stmt :=
  LAZY_STREAM (PCEF_LOG_STREAM b site severity args) (CEF_LOG_IS_ON b severity)

/-- Embeds `PCEF_LOG_IF(severity, condition) << e1 << ... << en`, lines 328-329. -/
def PCEF_LOG_IF (b : Build) (site : Site) (severity : SeverityName) (condition : Expr Bool)
    (args : List StreamArg) : Stmt :=
  LAZY_STREAM (PCEF_LOG_STREAM b site severity args)
    (land (CEF_LOG_IS_ON b severity) condition)

/-! ## CHECK and PCHECK (lines 335-348) -/

/-- Embeds `CHECK(condition) << e1 << ... << en`, lines 342-344. -/
def CHECK (b : Build) (site : Site) (conditionText : String) (condition : Expr Bool)
    (args : List StreamArg) : Stmt :=
  LAZY_STREAM
    (CEF_LOG_STREAM b site .FATAL (lit ("Check failed: " ++ conditionText ++ ". ") :: args))
    (lnot condition)

/-- Embeds `PCHECK(condition) << e1 << ... << en`, lines 346-348. -/
def PCHECK (b : Build) (site : Site) (conditionText : String) (condition : Expr Bool)
    (args : List StreamArg) : Stmt :=
  LAZY_STREAM
    (PCEF_LOG_STREAM b site .FATAL (lit ("Check failed: " ++ conditionText ++ ". ") :: args))
    (lnot condition)

/-! ## Comparison checks (lines 350-421) -/

/-- Stream insertion `ss << v` for a value of type `α`: the text it
writes. -/
class Streamable (α : Type) where
  render : α → String

/-- The inserter `operator<<(int)` on a stream with default formatting: decimal digits,
with a leading minus sign for a negative value. -/
instance : Streamable Int := ⟨fun v => toString v⟩

/-- The inserter `operator<<` for `std::string` and `const char*`. -/
instance : Streamable String := ⟨fun s => s⟩

/-- Embeds `MakeCheckOpString(v1, v2, names)`, lines 365-371. -/
def MakeCheckOpString {t1 t2 : Type} [Streamable t1] [Streamable t2]
    (v1 : t1) (v2 : t2) (names : String) : Expr String := fun w =>
  let ss := ""
  let ss := ss ++ names ++ " (" ++ Streamable.render v1 ++ " vs. " ++ Streamable.render v2 ++ ")"
  (ss, { w with allocated := w.allocated + 1 })

/-- Embeds `DEFINE_CHECK_OP_IMPL(name, op)`, lines 397-407: the body shared by the
template and by the `(int, int)` overload; `none` is `NULL`. -/
def DEFINE_CHECK_OP_IMPL {t1 t2 : Type} [Streamable t1] [Streamable t2]
    (op : t1 → t2 → Bool) (v1 : t1) (v2 : t2) (names : String) :
    Expr (Option String) := fun w =>
  if op v1 v2 then (none, w)
  else
    let r := MakeCheckOpString v1 v2 names w
    (some r.1, r.2)

/-- Embeds `CheckEQImpl(int, int, const char*)`, from `DEFINE_CHECK_OP_IMPL(EQ, ==)`,
line 408. -/
def CheckEQImpl (v1 v2 : Int) (names : String) : Expr (Option String) :=
  DEFINE_CHECK_OP_IMPL (fun a b => decide (a = b)) v1 v2 names

/-- Embeds `CheckNEImpl(int, int, const char*)`, from `DEFINE_CHECK_OP_IMPL(NE, !=)`,
line 409. -/
def CheckNEImpl (v1 v2 : Int) (names : String) : Expr (Option String) :=
  DEFINE_CHECK_OP_IMPL (fun a b => decide (a ≠ b)) v1 v2 names

/-- Embeds `CheckLEImpl(int, int, const char*)`, from `DEFINE_CHECK_OP_IMPL(LE, <=)`,
line 410. -/
def CheckLEImpl (v1 v2 : Int) (names : String) : Expr (Option String) :=
  DEFINE_CHECK_OP_IMPL (fun a b => decide (a ≤ b)) v1 v2 names

/-- Embeds `CheckLTImpl(int, int, const char*)`, from `DEFINE_CHECK_OP_IMPL(LT, < )`,
line 411. -/
def CheckLTImpl (v1 v2 : Int) (names : String) : Expr (Option String) :=
  DEFINE_CHECK_OP_IMPL (fun a b => decide (a < b)) v1 v2 names

/-- Embeds `CheckGEImpl(int, int, const char*)`, from `DEFINE_CHECK_OP_IMPL(GE, >=)`,
line 412. -/
def CheckGEImpl (v1 v2 : Int) (names : String) : Expr (Option String) :=
  DEFINE_CHECK_OP_IMPL (fun a b => decide (a ≥ b)) v1 v2 names

/-- Embeds `CheckGTImpl(int, int, const char*)`, from `DEFINE_CHECK_OP_IMPL(GT, > )`,
line 413. -/
def CheckGTImpl (v1 v2 : Int) (names : String) : Expr (Option String) :=
  DEFINE_CHECK_OP_IMPL (fun a b => decide (a > b)) v1 v2 names

/-- The `name` argument of `CHECK_OP` / `DCHECK_OP`. -/
inductive CheckName where
  | EQ
  | NE
  | LE
  | LT
  | GE
  | GT
  deriving DecidableEq, Repr

/-- Embeds `Check ## name ## Impl` at `int` operands. -/
def CheckImpl : CheckName → Int → Int → String → Expr (Option String)
  | .EQ => CheckEQImpl
  | .NE => CheckNEImpl
  | .LE => CheckLEImpl
  | .LT => CheckLTImpl
  | .GE => CheckGEImpl
  | .GT => CheckGTImpl

/-- The `op` argument that `CHECK_EQ` .. `CHECK_GT` (lines 416-421) and
`DCHECK_EQ` .. `DCHECK_GT` (lines 544-549) pass with each name, as `#op`
prints it. -/
def CheckName.opText : CheckName → String
  | .EQ => "=="
  | .NE => "!="
  | .LE => "<="
  | .LT => "<"
  | .GE => ">="
  | .GT => ">"

/-- The relation each name tests. -/
def CheckName.holds : CheckName → Int → Int → Prop
  | .EQ, a, b => a = b
  | .NE, a, b => a ≠ b
  | .LE, a, b => a ≤ b
  | .LT, a, b => a < b
  | .GE, a, b => a ≥ b
  | .GT, a, b => a > b

/-- The two operands `(val1), (val2)` of a call, each evaluated once, in the
order the compiler chose. -/
def evalOperands {α β : Type} (b : Build) (val1 : Expr α) (val2 : Expr β) :
    Expr (α × β) := fun w =>
  if b.argsRightToLeft then
    let r2 := val2 w
    let r1 := val1 r2.2
    ((r1.1, r2.1), r1.2)
  else
    let r1 := val1 w
    let r2 := val2 r1.2
    ((r1.1, r2.1), r2.2)

/-- Embeds `CHECK_OP(name, op, val1, val2) << e1 << ... << en`, lines 355-359, at
`int` operands; `val1Text` and `val2Text` are `#val1` and `#val2`. -/
def CHECK_OP (b : Build) (site : Site) (name : CheckName) (opText : String)
    (val1 val2 : Expr Int) (val1Text val2Text : String) (args : List StreamArg) : Stmt :=
  fun w =>
    let v := evalOperands b val1 val2 w
    let r := CheckImpl name v.1.1 v.1.2 (val1Text ++ " " ++ opText ++ " " ++ val2Text) v.2
    match r.1 with
    | none => r.2
    | some _result => streamStmt (LogMessage.newResult b site.file site.line _result) args r.2

/-- Embeds `CHECK_EQ(val1, val2)` .. `CHECK_GT(val1, val2)`, lines 416-421. -/
def CHECK_ (b : Build) (site : Site) (name : CheckName)
    (val1 val2 : Expr Int) (val1Text val2Text : String) (args : List StreamArg) : Stmt :=
  CHECK_OP b site name name.opText val1 val2 val1Text val2Text args

/-! ## DCHECK (lines 484-549) -/

/-- Embeds `DCHECK(condition) << e1 << ... << en`, lines 508-510. -/
def DCHECK (b : Build) (site : Site) (conditionText : String) (condition : Expr Bool)
    (args : List StreamArg) : Stmt :=
  LAZY_STREAM
    (CEF_LOG_STREAM b site .DCHECK (lit ("Check failed: " ++ conditionText ++ ". ") :: args))
    (land (lit (DCHECK_IS_ON b)) (lnot condition))

/-- Embeds `DPCHECK(condition) << e1 << ... << en`, lines 512-514. -/
def DPCHECK (b : Build) (site : Site) (conditionText : String) (condition : Expr Bool)
    (args : List StreamArg) : Stmt :=
  LAZY_STREAM
    (PCEF_LOG_STREAM b site .DCHECK (lit ("Check failed: " ++ conditionText ++ ". ") :: args))
    (land (lit (DCHECK_IS_ON b)) (lnot condition))

/-- Embeds `DCHECK_OP(name, op, val1, val2) << e1 << ... << en`, lines 518-523, at
`int` operands. -/
def DCHECK_OP (b : Build) (site : Site) (name : CheckName) (opText : String)
    (val1 val2 : Expr Int) (val1Text val2Text : String) (args : List StreamArg) : Stmt :=
  fun w =>
    if DCHECK_IS_ON b then
      let v := evalOperands b val1 val2 w
      let r := CheckImpl name v.1.1 v.1.2 (val1Text ++ " " ++ opText ++ " " ++ val2Text) v.2
      match r.1 with
      | none => r.2
      | some _result =>
        streamStmt (LogMessage.newResultAt b site.file site.line (CEF_LOG_DCHECK b) _result)
          args r.2
    else w

/-- Embeds `DCHECK_EQ(val1, val2)` .. `DCHECK_GT(val1, val2)`, lines 544-549. -/
def DCHECK_ (b : Build) (site : Site) (name : CheckName)
    (val1 val2 : Expr Int) (val1Text val2Text : String) (args : List StreamArg) : Stmt :=
  DCHECK_OP b site name name.opText val1 val2 val1Text val2Text args

/-! ## Properties of expressions, and concrete inputs -/

/-- An expression that builds no log record of its own. -/
def KeepsSink {α : Type} (e : Expr α) : Prop := ∀ w, (e w).2.sink = w.sink

/-- Modelled from the spec: `cef_get_min_log_level()`, which `GetMinLogLevel()`
returns, is declared in cef_logging_internal.h and implemented outside the
header.  The header relies on it ("we can assume that CEF_LOG_IS_ON(FATAL)
always holds", lines 245-247), and the spec defines FATAL "to always be
considered on regardless of the configured minimum": the value it returns
never exceeds `CEF_LOG_FATAL`. -/
def MinLogLevelContract (w : World) : Prop := (GetMinLogLevel w).1 ≤ CEF_LOG_FATAL

/-- An expression that increments no counter. -/
def KeepsCounters {α : Type} (e : Expr α) : Prop := ∀ w, (e w).2.counters = w.counters

/-- The configuration is changed between two statements: the verbosity
ceiling becomes `v` for every file. -/
def setVlogLevel (v : Int) : Stmt := fun w => { w with vlogLevel := fun _ _ => v }

/-- The configuration is changed between two statements: the minimum log
level becomes `m`. -/
def setMinLogLevel (m : Int) : Stmt := fun w => { w with minLogLevel := m }

/-- A release build for POSIX: `NDEBUG` defined, `DCHECK_ALWAYS_ON` not. -/
def releaseBuild : Build :=
  { ndebug := true, dcheckAlwaysOn := false, osWin := false, argsRightToLeft := false }

/-- A debug build for POSIX. -/
def debugBuild : Build :=
  { ndebug := false, dcheckAlwaysOn := false, osWin := false, argsRightToLeft := true }

/-- A call site. -/
def site0 : Site := { file := "main.cc", line := 42 }

/-- A process that has logged nothing yet, with minimum level WARNING and
verbosity ceiling 0. -/
def world0 : World :=
  { minLogLevel := 1, vlogLevel := fun _ _ => 0, lastError := 0,
    errorText := fun _ => "", counters := fun _ => 0, allocated := 0,
    sink := [], terminated := false }

/-! ## Verbose statements with the system error (lines 291-306) -/

/-- Embeds `VPCEF_LOG_STREAM(verbose_level) << e1 << ... << en`, lines 291-299:
the level is pasted as `-verbose_level`, without parentheses, and the
constructor argument `GetLastSystemErrorCode()` is evaluated when the record
is constructed. -/
def VPCEF_LOG_STREAM (b : Build) (site : Site) (verbose_level : LevelArg)
    (args : List StreamArg) : Stmt :=
  streamStmt
    (fun w =>
      let e := GetLastSystemErrorCode w
      ErrnoLogMessage.new b site.file site.line verbose_level.negated e.1 e.2)
    args

/-- Embeds `VPCEF_LOG(verbose_level) << e1 << ... << en`, lines 301-302. -/
def VPCEF_LOG (b : Build) (site : Site) (verbose_level : LevelArg) (args : List StreamArg) :
    Stmt :=
  LAZY_STREAM (VPCEF_LOG_STREAM b site verbose_level args)
    (VCEF_LOG_IS_ON site verbose_level.value)

/-- Embeds `VPCEF_LOG_IF(verbose_level, condition) << e1 << ... << en`, lines
304-306. -/
def VPCEF_LOG_IF (b : Build) (site : Site) (verbose_level : LevelArg)
    (condition : Expr Bool) (args : List StreamArg) : Stmt :=
  LAZY_STREAM (VPCEF_LOG_STREAM b site verbose_level args)
    (land (VCEF_LOG_IS_ON site verbose_level.value) condition)

/-! ## LogAtLevel and NOTIMPLEMENTED (lines 331-333, 618-622, 702-748) -/

/-- Embeds `EAT_STREAM_PARAMETERS << e1 << ... << en`, lines 332-333:
`true ? (void) 0 : LogMessageVoidify() & CEF_LOG_STREAM(FATAL)`. -/
def EAT_STREAM_PARAMETERS (b : Build) (site : Site) (args : List StreamArg) : Stmt :=
  fun w => if true then w else CEF_LOG_STREAM b site .FATAL args w

/-- The line of the header on which the body of `LogAtLevel` stands: the
value of `__LINE__` there. -/
def LogAtLevel_line : Int := 621

/-- Embeds `LogAtLevel(log_level, msg)`, lines 620-622; `headerFile` is the
value of `__FILE__` inside the header. -/
def LogAtLevel (b : Build) (headerFile : String) (log_level : Int) (msg : String) : Stmt :=
  streamStmt (LogMessage.new b headerFile LogAtLevel_line log_level)
    [lit (Streamable.render msg)]

/-- Embeds `NOTIMPLEMENTED_MSG`, lines 722-728, as the operands it streams:
under `COMPILER_GCC` the literal and `__PRETTY_FUNCTION__`, otherwise one
literal. -/
def NOTIMPLEMENTED_MSG (compilerGcc : Bool) (prettyFunction : String) : List StreamArg :=
  if compilerGcc then [lit "Not implemented reached in ", lit prettyFunction]
  else [lit "NOT IMPLEMENTED"]

/-- Embeds `NOTIMPLEMENTED() << e1 << ... << en` under `NOTIMPLEMENTED_POLICY`
5, lines 741-747.  The function-local `static bool logged_once` of the call
site is passed in and returned; it is `false` before the first execution.
(Under `OS_WIN` the token `ERROR` is 0, and `CEF_LOG_0` and
`COMPACT_GOOGLE_CEF_LOG_0` are the `ERROR` forms, lines 237-242.) -/
def NOTIMPLEMENTED (b : Build) (site : Site) (compilerGcc : Bool) (prettyFunction : String)
    (args : List StreamArg) (logged_once : Bool) : World → Bool × World := fun w =>
  let w1 := CEF_LOG_IF b site .ERROR (lnot (lit logged_once))
    (NOTIMPLEMENTED_MSG compilerGcc prettyFunction) w
  let logged_once := true
  (logged_once, EAT_STREAM_PARAMETERS b site args w1)

/-! ## More expressions and harnesses for the claims -/

/-- An expression that leaves the platform last-error value at `e` and has
value `v`, such as a system call that fails. -/
def setsLastError {α : Type} (e : Int) (v : α) : Expr α := fun w =>
  (v, { w with lastError := e })

/-- An expression that does not change the platform last-error value. -/
def KeepsLastError {α : Type} (e : Expr α) : Prop := ∀ w, (e w).2.lastError = w.lastError

/-- The texts streamed by `e1 .. en`, evaluated from left to right. -/
def argTexts : List StreamArg → World → List String
  | [], _ => []
  | e :: es, w => (e w).1 :: argTexts es (e w).2

/-- The concatenation `t1 ++ ... ++ tn`. -/
def concatTexts : List String → String
  | [] => ""
  | t :: ts => t ++ concatTexts ts

/-- One `NOTIMPLEMENTED()` call site executed once for each element of
`levels`, in order; before each execution the minimum log level is set to
that element.  Yields the final value of the site's `logged_once` and the
final state. -/
def runNotImplemented (b : Build) (site : Site) (compilerGcc : Bool)
    (prettyFunction : String) (args : List StreamArg) :
    List Int → Bool → World → Bool × World
  | [], logged_once, w => (logged_once, w)
  | m :: levels, logged_once, w =>
    let r := NOTIMPLEMENTED b site compilerGcc prettyFunction args logged_once
      (setMinLogLevel m w)
    runNotImplemented b site compilerGcc prettyFunction args levels r.1 r.2

/-! ## Lemmas on streaming and gates -/

theorem streamArgs_frame {β : Type} (f : World → β) (args : List StreamArg)
    (h : ∀ e ∈ args, ∀ w, f (e w).2 = f w) (msg : LogMessage) (w : World) :
    f (streamArgs args msg w).2 = f w := by
  induction args generalizing msg w with
  | nil => rfl
  | cons e es ih =>
    simp only [streamArgs]
    rw [ih (fun x hx => h x (List.mem_cons_of_mem _ hx))]
    exact h e (List.mem_cons_self _ _) w

theorem streamArgs_msg (args : List StreamArg) (msg : LogMessage) (w : World) :
    ∃ t, (streamArgs args msg w).1 = { msg with stream_ := t } := by
  induction args generalizing msg w with
  | nil => exact ⟨msg.stream_, rfl⟩
  | cons e es ih =>
    obtain ⟨t, ht⟩ := ih { msg with stream_ := msg.stream_ ++ (e w).1 } (e w).2
    exact ⟨t, by simp only [streamArgs]; rw [ht]⟩

theorem streamStmt_sink_eq (ctor : Expr LogMessage) (args : List StreamArg)
    (hc : KeepsSink ctor) (h : ∀ e ∈ args, KeepsSink e) (w : World) :
    ∃ t, (streamStmt ctor args w).sink = w.sink ++ [{ (ctor w).1 with stream_ := t }] := by
  obtain ⟨t, ht⟩ := streamArgs_msg args (ctor w).1 (ctor w).2
  have hs : (streamArgs args (ctor w).1 (ctor w).2).2.sink = w.sink := by
    rw [streamArgs_frame (fun x => x.sink) args h, hc w]
  cases he : (ctor w).1.err_ with
  | none =>
    refine ⟨t, ?_⟩
    simp only [streamStmt, LogMessage.destroy, hs, ht, he]
  | some e =>
    refine ⟨t ++ (streamArgs args (ctor w).1 (ctor w).2).2.errorText e, ?_⟩
    simp only [streamStmt, LogMessage.destroy, hs, ht, he]

theorem streamStmt_sink (ctor : Expr LogMessage) (args : List StreamArg)
    (hc : KeepsSink ctor) (h : ∀ e ∈ args, KeepsSink e) (w : World) :
    (streamStmt ctor args w).sink.length = w.sink.length + 1 := by
  obtain ⟨t, ht⟩ := streamStmt_sink_eq ctor args hc h w
  rw [ht, List.length_append, List.length_singleton]

theorem streamStmt_counters (ctor : Expr LogMessage) (args : List StreamArg)
    (hc : KeepsCounters ctor) (h : ∀ e ∈ args, KeepsCounters e) (w : World) :
    (streamStmt ctor args w).counters = w.counters := by
  simp only [streamStmt, LogMessage.destroy]
  rw [streamArgs_frame (fun x => x.counters) args h, hc w]

theorem keepsSink_lit {α : Type} (v : α) : KeepsSink (lit v) := fun _ => rfl

theorem keepsSink_bump {α : Type} (k : Nat) (v : α) : KeepsSink (bump k v) := fun _ => rfl

theorem keepsCounters_lit {α : Type} (v : α) : KeepsCounters (lit v) := fun _ => rfl

theorem keepsSink_cons_lit (s : String) (args : List StreamArg)
    (h : ∀ e ∈ args, KeepsSink e) : ∀ e ∈ lit s :: args, KeepsSink e := by
  intro e he
  rcases List.mem_cons.mp he with rfl | he
  · exact keepsSink_lit s
  · exact h e he

theorem keepsSink_compact (b : Build) (site : Site) (S : SeverityName) :
    KeepsSink (COMPACT_GOOGLE_CEF_LOG_ b site S) := by
  intro w
  cases S <;> simp [COMPACT_GOOGLE_CEF_LOG_, COMPACT_GOOGLE_CEF_LOG_EX_, LogMessage.new]
  split <;> rfl

theorem compact_severity (b : Build) (site : Site) (S : SeverityName) (w : World) :
    (COMPACT_GOOGLE_CEF_LOG_ b site S w).1.severity_ = CEF_LOG_ b S := by
  cases S <;>
    simp [COMPACT_GOOGLE_CEF_LOG_, COMPACT_GOOGLE_CEF_LOG_EX_, LogMessage.new, CEF_LOG_,
      CEF_LOG_DCHECK]
  split <;> rfl

theorem CEF_LOG_IS_ON_eval (b : Build) (S : SeverityName) (w : World) :
    CEF_LOG_IS_ON b S w = (decide (CEF_LOG_ b S ≥ w.minLogLevel), w) := rfl

theorem VCEF_LOG_IS_ON_eval (site : Site) (N : Int) (w : World) :
    VCEF_LOG_IS_ON site N w = (decide (N ≤ (GetVlogLevel site.file w).1), w) := rfl

theorem land_lit_eval (a : Expr Bool) (c : Bool) (w : World) (h : (a w).2 = w) :
    land a (lit c) w = ((a w).1 && c, w) := by
  unfold land lit
  cases hx : (a w).1 <;> simp [hx, h]

theorem lnot_lit_eval (c : Bool) (w : World) : lnot (lit c) w = (!c, w) := rfl

theorem LAZY_STREAM_eval (stream : Stmt) (condition : Expr Bool) (w : World) :
    LAZY_STREAM stream condition w
      = if (condition w).1 = true then stream (condition w).2 else (condition w).2 := by
  unfold LAZY_STREAM
  cases h : (condition w).1 <;> simp [h]

theorem CEF_LOG_IF_eval (b : Build) (site : Site) (S : SeverityName) (c : Bool)
    (args : List StreamArg) (w : World) :
    CEF_LOG_IF b site S (lit c) args w
      = if CEF_LOG_ b S ≥ w.minLogLevel ∧ c = true then CEF_LOG_STREAM b site S args w
        else w := by
  rw [CEF_LOG_IF, LAZY_STREAM_eval, land_lit_eval _ _ _ rfl, CEF_LOG_IS_ON_eval]
  simp

theorem CEF_LOG_eval (b : Build) (site : Site) (S : SeverityName)
    (args : List StreamArg) (w : World) :
    CEF_LOG b site S args w
      = if CEF_LOG_ b S ≥ w.minLogLevel then CEF_LOG_STREAM b site S args w else w := by
  rw [CEF_LOG, LAZY_STREAM_eval, CEF_LOG_IS_ON_eval]
  simp

/-! ## The claims -/

/-- C1: with `m` the value `GetMinLogLevel()` returns, `CEF_LOG_IF(S, c)`
builds one log record when `S >= m` and `c` hold and otherwise does nothing
at all, `CEF_LOG(S)` builds one record when `S >= m` and otherwise does
nothing; so `CEF_LOG_IF(S, false)` does nothing and `CEF_LOG_IF(S, true)` does
what `CEF_LOG(S)` does.  The streamed expressions are any expressions that do
not log themselves. -/
theorem severity_gate (b : Build) (site : Site) (S : SeverityName) (c : Bool)
    (args : List StreamArg) (w : World) (hargs : ∀ e ∈ args, KeepsSink e) :
    ((CEF_LOG_IF b site S (lit c) args w).sink.length
        = w.sink.length
          + (if CEF_LOG_ b S ≥ (GetMinLogLevel w).1 ∧ c = true then 1 else 0))
    ∧ (¬ (CEF_LOG_ b S ≥ (GetMinLogLevel w).1 ∧ c = true)
        → CEF_LOG_IF b site S (lit c) args w = w)
    ∧ ((CEF_LOG b site S args w).sink.length
        = w.sink.length + (if CEF_LOG_ b S ≥ (GetMinLogLevel w).1 then 1 else 0))
    ∧ (¬ (CEF_LOG_ b S ≥ (GetMinLogLevel w).1) → CEF_LOG b site S args w = w)
    ∧ CEF_LOG_IF b site S (lit false) args w = w
    ∧ CEF_LOG_IF b site S (lit true) args w = CEF_LOG b site S args w := by
  have hs := streamStmt_sink (COMPACT_GOOGLE_CEF_LOG_ b site S) args
    (keepsSink_compact b site S) hargs w
  simp only [GetMinLogLevel]
  refine ⟨?_, ?_, ?_, ?_, ?_, ?_⟩
  · rw [CEF_LOG_IF_eval]; split
    · exact hs
    · rfl
  · intro h; rw [CEF_LOG_IF_eval, if_neg h]
  · rw [CEF_LOG_eval]; split
    · exact hs
    · rfl
  · intro h; rw [CEF_LOG_eval, if_neg h]
  · rw [CEF_LOG_IF_eval]; simp
  · rw [CEF_LOG_IF_eval, CEF_LOG_eval]; simp

/-- Witness for C1: ERROR at minimum level WARNING, condition true, two
streamed expressions of which one increments a counter. -/
theorem severity_gate_witness :
    (∀ e ∈ [bump 0 "a", lit "b"], KeepsSink e)
    ∧ (CEF_LOG_IF releaseBuild site0 .ERROR (lit true) [bump 0 "a", lit "b"] world0).sink.length
        = 1 :=
  have h : ∀ e ∈ [bump 0 "a", lit "b"], KeepsSink e := by
    intro e he
    simp only [List.mem_cons, List.mem_singleton, List.not_mem_nil, or_false] at he
    rcases he with rfl | rfl
    · exact keepsSink_bump 0 "a"
    · exact keepsSink_lit "b"
  ⟨h, (severity_gate releaseBuild site0 .ERROR true [bump 0 "a", lit "b"] world0 h).1.trans
    (by decide)⟩

/-- C2: when `S < GetMinLogLevel()`, the statement `CEF_LOG(S) << e1 << ... << en`
leaves the whole state as it was, whatever the streamed expressions are: no
record reaches the sink and no counter moves, so none of `e1..en` was
evaluated.  Any `LAZY_STREAM` statement whose gate condition is false,
whatever the minimum log level is, leaves the state as the evaluation of the
condition left it, whatever the stream operand is: the stream operand adds no
record and moves no counter. -/
theorem lazy_stream_skips (b : Build) (site : Site) (S : SeverityName)
    (args : List StreamArg) (stream : Stmt) (condition : Expr Bool) (w : World) :
    (CEF_LOG_ b S < (GetMinLogLevel w).1 →
        CEF_LOG b site S args w = w
        ∧ (CEF_LOG b site S args w).sink = w.sink
        ∧ (CEF_LOG b site S args w).counters = w.counters)
    ∧ ((condition w).1 = false →
        LAZY_STREAM stream condition w = (condition w).2
        ∧ (LAZY_STREAM stream condition w).sink = (condition w).2.sink
        ∧ (LAZY_STREAM stream condition w).counters = (condition w).2.counters) := by
  refine ⟨fun hS => ?_, fun hc => ?_⟩
  · have h : CEF_LOG b site S args w = w := by
      have hS2 : ¬ CEF_LOG_ b S ≥ w.minLogLevel := not_le.mpr hS
      rw [CEF_LOG_eval, if_neg hS2]
    exact ⟨h, by rw [h], by rw [h]⟩
  · have h : LAZY_STREAM stream condition w = (condition w).2 := by
      rw [LAZY_STREAM_eval, hc]
      simp
    exact ⟨h, by rw [h], by rw [h]⟩

/-- Witness for C2: `CEF_LOG(INFO)` at minimum level WARNING, with a streamed
expression that would increment counter 0; and, at minimum level 0, where no
severity is below the minimum, the `LAZY_STREAM` statement of `VCEF_LOG(3)`
under ceiling 0, with the same streamed expression. -/
theorem lazy_stream_skips_witness :
    CEF_LOG_ releaseBuild .INFO < (GetMinLogLevel world0).1
    ∧ (CEF_LOG releaseBuild site0 .INFO [bump 0 "a"] world0).counters 0 = 0
    ∧ (CEF_LOG releaseBuild site0 .INFO [bump 0 "a"] world0).sink = []
    ∧ (VCEF_LOG_IS_ON site0 3 (setMinLogLevel 0 world0)).1 = false
    ∧ (LAZY_STREAM (VCEF_LOG_STREAM releaseBuild site0 (.atom 3) [bump 0 "a"])
          (VCEF_LOG_IS_ON site0 3) (setMinLogLevel 0 world0)).counters 0 = 0
    ∧ (LAZY_STREAM (VCEF_LOG_STREAM releaseBuild site0 (.atom 3) [bump 0 "a"])
          (VCEF_LOG_IS_ON site0 3) (setMinLogLevel 0 world0)).sink = [] :=
  have h1 := (lazy_stream_skips releaseBuild site0 .INFO [bump 0 "a"]
    (CEF_LOG_STREAM releaseBuild site0 .INFO [bump 0 "a"]) (lit false) world0).1 (by decide)
  have h2 := (lazy_stream_skips releaseBuild site0 .INFO [bump 0 "a"]
    (VCEF_LOG_STREAM releaseBuild site0 (.atom 3) [bump 0 "a"]) (VCEF_LOG_IS_ON site0 3)
    (setMinLogLevel 0 world0)).2 (by decide)
  ⟨by decide, by rw [h1.1]; rfl, by rw [h1.1]; rfl, by decide, by rw [h2.1]; rfl,
    by rw [h2.1]; rfl⟩

/-- C3: whatever the minimum log level `m` is, `CHECK(c)` leaves the state as
it was when `c` is true, and adds exactly one record to the sink, of severity
FATAL, when `c` is false; the same holds for `PCHECK(c)`.  The expressions
streamed after the check are any expressions that do not log themselves. -/
theorem check_ignores_min_level (b : Build) (site : Site) (conditionText : String)
    (args : List StreamArg) (w : World) (m : Int) (hargs : ∀ e ∈ args, KeepsSink e) :
    CHECK b site conditionText (lit true) args (setMinLogLevel m w) = setMinLogLevel m w
    ∧ (∃ msg, (CHECK b site conditionText (lit false) args (setMinLogLevel m w)).sink
          = w.sink ++ [msg] ∧ msg.severity_ = CEF_LOG_FATAL)
    ∧ PCHECK b site conditionText (lit true) args (setMinLogLevel m w) = setMinLogLevel m w
    ∧ (∃ msg, (PCHECK b site conditionText (lit false) args (setMinLogLevel m w)).sink
          = w.sink ++ [msg] ∧ msg.severity_ = CEF_LOG_FATAL) := by
  have hargs2 := keepsSink_cons_lit ("Check failed: " ++ conditionText ++ ". ") args hargs
  refine ⟨?_, ?_, ?_, ?_⟩
  · rw [CHECK, LAZY_STREAM_eval, lnot_lit_eval]; simp
  · rw [CHECK, LAZY_STREAM_eval, lnot_lit_eval]
    obtain ⟨t, ht⟩ := streamStmt_sink_eq (COMPACT_GOOGLE_CEF_LOG_ b site .FATAL) _
      (keepsSink_compact b site .FATAL) hargs2 (setMinLogLevel m w)
    exact ⟨_, by simpa [CEF_LOG_STREAM] using ht, rfl⟩
  · rw [PCHECK, LAZY_STREAM_eval, lnot_lit_eval]; simp
  · rw [PCHECK, LAZY_STREAM_eval, lnot_lit_eval]
    obtain ⟨t, ht⟩ := streamStmt_sink_eq
      (fun w =>
        COMPACT_GOOGLE_CEF_LOG_EX_ b site
          (fun file line sev => ErrnoLogMessage.new b file line sev (GetLastSystemErrorCode w).1)
          .FATAL (GetLastSystemErrorCode w).2) _
      (fun _ => rfl) hargs2 (setMinLogLevel m w)
    exact ⟨_, by simpa [PCEF_LOG_STREAM] using ht, rfl⟩

/-- Witness for C3: a failing `CHECK` with minimum level 7, above FATAL. -/
theorem check_ignores_min_level_witness :
    (∀ e ∈ [lit "x"], KeepsSink e)
    ∧ ∃ msg, (CHECK debugBuild site0 "ok" (lit false) [lit "x"] (setMinLogLevel 7 world0)).sink
          = world0.sink ++ [msg] ∧ msg.severity_ = CEF_LOG_FATAL :=
  have h : ∀ e ∈ [lit "x"], KeepsSink e := by
    intro e he
    rw [List.mem_singleton] at he
    subst he
    exact keepsSink_lit "x"
  ⟨h, (check_ignores_min_level debugBuild site0 "ok" [lit "x"] world0 7 h).2.1⟩

theorem CEF_LOG_IS_ON_FATAL_iff (b : Build) (w : World) :
    (CEF_LOG_IS_ON b .FATAL w).1 = true ↔ MinLogLevelContract w := by
  simp [CEF_LOG_IS_ON_eval, MinLogLevelContract, GetMinLogLevel, CEF_LOG_]

theorem DEFINE_CHECK_OP_IMPL_none {t1 t2 : Type} [Streamable t1] [Streamable t2]
    (op : t1 → t2 → Bool) (v1 : t1) (v2 : t2) (names : String) (w : World) :
    ((DEFINE_CHECK_OP_IMPL op v1 v2 names w).1 = none ↔ op v1 v2 = true)
    ∧ ((DEFINE_CHECK_OP_IMPL op v1 v2 names w).1.isSome = true ↔ ¬ op v1 v2 = true) := by
  unfold DEFINE_CHECK_OP_IMPL
  cases h : op v1 v2 <;> simp

/-- C5: at `int` operands, each of `CheckEQImpl`, `CheckNEImpl`, `CheckLEImpl`,
`CheckLTImpl`, `CheckGEImpl`, `CheckGTImpl` returns NULL exactly when
`v1 op v2` holds for its operator, and a non-null string exactly when it does
not, whatever the label is. -/
theorem check_impl_null_iff (v1 v2 : Int) (names : String) (w : World) :
    (((CheckEQImpl v1 v2 names w).1 = none ↔ v1 = v2)
      ∧ ((CheckEQImpl v1 v2 names w).1.isSome = true ↔ ¬ v1 = v2))
    ∧ (((CheckNEImpl v1 v2 names w).1 = none ↔ v1 ≠ v2)
      ∧ ((CheckNEImpl v1 v2 names w).1.isSome = true ↔ ¬ v1 ≠ v2))
    ∧ (((CheckLEImpl v1 v2 names w).1 = none ↔ v1 ≤ v2)
      ∧ ((CheckLEImpl v1 v2 names w).1.isSome = true ↔ ¬ v1 ≤ v2))
    ∧ (((CheckLTImpl v1 v2 names w).1 = none ↔ v1 < v2)
      ∧ ((CheckLTImpl v1 v2 names w).1.isSome = true ↔ ¬ v1 < v2))
    ∧ (((CheckGEImpl v1 v2 names w).1 = none ↔ v1 ≥ v2)
      ∧ ((CheckGEImpl v1 v2 names w).1.isSome = true ↔ ¬ v1 ≥ v2))
    ∧ (((CheckGTImpl v1 v2 names w).1 = none ↔ v1 > v2)
      ∧ ((CheckGTImpl v1 v2 names w).1.isSome = true ↔ ¬ v1 > v2)) := by
  refine ⟨?_, ?_, ?_, ?_, ?_, ?_⟩
  · have h := DEFINE_CHECK_OP_IMPL_none (fun a b : Int => decide (a = b)) v1 v2 names w
    simp only [decide_eq_true_eq] at h
    exact h
  · have h := DEFINE_CHECK_OP_IMPL_none (fun a b : Int => decide (a ≠ b)) v1 v2 names w
    simp only [decide_eq_true_eq] at h
    exact h
  · have h := DEFINE_CHECK_OP_IMPL_none (fun a b : Int => decide (a ≤ b)) v1 v2 names w
    simp only [decide_eq_true_eq] at h
    exact h
  · have h := DEFINE_CHECK_OP_IMPL_none (fun a b : Int => decide (a < b)) v1 v2 names w
    simp only [decide_eq_true_eq] at h
    exact h
  · have h := DEFINE_CHECK_OP_IMPL_none (fun a b : Int => decide (a ≥ b)) v1 v2 names w
    simp only [decide_eq_true_eq] at h
    exact h
  · have h := DEFINE_CHECK_OP_IMPL_none (fun a b : Int => decide (a > b)) v1 v2 names w
    simp only [decide_eq_true_eq] at h
    exact h

theorem evalOperands_lit {α β : Type} (b : Build) (v1 : α) (v2 : β) (w : World) :
    evalOperands b (lit v1) (lit v2) w = ((v1, v2), w) := by
  unfold evalOperands lit
  split <;> rfl

theorem keepsSink_newResultAt (b : Build) (file : String) (line : Int) (sev : LogSeverity)
    (result : String) : KeepsSink (LogMessage.newResultAt b file line sev result) :=
  fun _ => rfl

/-- C6: `MakeCheckOpString(v1, v2, names)` returns
`names ++ " (" ++ render(v1) ++ " vs. " ++ render(v2) ++ ")"` for operands of
any streamable types; `CheckEQImpl(5, 6, "5 == 6")` returns
`"5 == 6 (5 vs. 6)"`, a failing `CHECK_EQ(5, 6)` builds exactly one record, of
severity FATAL, that owns this string, and the string contains `"5 vs. 6"`; a
passing `CHECK_EQ(5, 5)` gets NULL from `CheckEQImpl` and leaves the state as
it was.  The expressions streamed after the check are any expressions that do
not log themselves. -/
theorem make_check_op_string (b : Build) (site : Site) (args : List StreamArg) (w : World)
    (hargs : ∀ e ∈ args, KeepsSink e) :
    (∀ (t1 t2 : Type) [Streamable t1] [Streamable t2] (v1 : t1) (v2 : t2)
        (names : String) (w2 : World),
        (MakeCheckOpString v1 v2 names w2).1
          = names ++ " (" ++ Streamable.render v1 ++ " vs. " ++ Streamable.render v2 ++ ")")
    ∧ (CheckEQImpl 5 6 "5 == 6" w).1 = some "5 == 6 (5 vs. 6)"
    ∧ (∃ msg, (CHECK_ b site .EQ (lit 5) (lit 6) "5" "6" args w).sink = w.sink ++ [msg]
          ∧ msg.result = some "5 == 6 (5 vs. 6)" ∧ msg.severity_ = CEF_LOG_FATAL)
    ∧ "5 == 6 (5 vs. 6)" = "5 == 6 (" ++ "5 vs. 6" ++ ")"
    ∧ (CheckEQImpl 5 5 "5 == 5" w).1 = none
    ∧ CHECK_ b site .EQ (lit 5) (lit 5) "5" "5" args w = w := by
  refine ⟨?_, rfl, ?_, by decide, rfl, ?_⟩
  · intro t1 t2 _ _ v1 v2 names w2
    simp [MakeCheckOpString]
  · have hr : CheckImpl .EQ 5 6 ("5" ++ " " ++ CheckName.opText .EQ ++ " " ++ "6") w
        = (some "5 == 6 (5 vs. 6)", { w with allocated := w.allocated + 1 }) := rfl
    obtain ⟨t, ht⟩ := streamStmt_sink_eq
      (LogMessage.newResult b site.file site.line "5 == 6 (5 vs. 6)") args
      (keepsSink_newResultAt b _ _ _ _) hargs { w with allocated := w.allocated + 1 }
    refine ⟨{ (LogMessage.newResult b site.file site.line "5 == 6 (5 vs. 6)"
      { w with allocated := w.allocated + 1 }).1 with stream_ := t }, ?_, rfl, rfl⟩
    simp only [CHECK_, CHECK_OP, evalOperands_lit, hr]
    exact ht
  · have hr : CheckImpl .EQ 5 5 ("5" ++ " " ++ CheckName.opText .EQ ++ " " ++ "5") w
        = (none, w) := rfl
    simp only [CHECK_, CHECK_OP, evalOperands_lit, hr]

/-- Witness for C6: a failing `CHECK_EQ(5, 6) << "x"` in a process that has
logged nothing. -/
theorem make_check_op_string_witness :
    (∀ e ∈ [lit "x"], KeepsSink e)
    ∧ ∃ msg, (CHECK_ debugBuild site0 .EQ (lit 5) (lit 6) "5" "6" [lit "x"] world0).sink
          = world0.sink ++ [msg]
        ∧ msg.result = some "5 == 6 (5 vs. 6)" ∧ msg.severity_ = CEF_LOG_FATAL :=
  have h : ∀ e ∈ [lit "x"], KeepsSink e := by
    intro e he
    rw [List.mem_singleton] at he
    subst he
    exact keepsSink_lit "x"
  ⟨h, (make_check_op_string debugBuild site0 [lit "x"] world0 h).2.2.1⟩

theorem CheckImpl_counters (name : CheckName) (v1 v2 : Int) (names : String) (w : World) :
    (CheckImpl name v1 v2 names w).2.counters = w.counters := by
  cases name <;>
    simp only [CheckImpl, CheckEQImpl, CheckNEImpl, CheckLEImpl, CheckLTImpl, CheckGEImpl,
      CheckGTImpl, DEFINE_CHECK_OP_IMPL] <;>
    split <;> rfl

theorem CHECK_OP_counters (b : Build) (site : Site) (name : CheckName) (opText : String)
    (val1 val2 : Expr Int) (val1Text val2Text : String) (args : List StreamArg)
    (hargs : ∀ e ∈ args, KeepsCounters e) (w : World) :
    (CHECK_OP b site name opText val1 val2 val1Text val2Text args w).counters
      = (evalOperands b val1 val2 w).2.counters := by
  simp only [CHECK_OP]
  split
  · exact CheckImpl_counters _ _ _ _ _
  · rw [streamStmt_counters _ args (fun _ => rfl) hargs]
    exact CheckImpl_counters _ _ _ _ _

theorem evalOperands_bump_counters (b : Build) (k1 k2 : Nat) (v1 v2 : Int) (w : World)
    (hk : k1 ≠ k2) (k : Nat) :
    (evalOperands b (bump k1 v1) (bump k2 v2) w).2.counters k
      = w.counters k + (if k = k1 then 1 else 0) + (if k = k2 then 1 else 0) := by
  unfold evalOperands bump
  by_cases h1 : k = k1 <;> by_cases h2 : k = k2 <;> cases b.argsRightToLeft <;>
    simp_all [Function.update]

/-- C7: in `CHECK_EQ/NE/LE/LT/GE/GT(val1, val2)` with operands that
increment counters `k1` and `k2` (two different counters) and have values `v1`
and `v2`, one execution of the check increments each of the two counters by
exactly 1 and no other counter, whatever `v1` and `v2` are (so both when the
comparison passes and when it fails) and in whichever order the compiler
evaluates the operands.  The expressions streamed after the check are any
expressions that increment no counter. -/
theorem check_op_operands_once (b : Build) (site : Site) (name : CheckName) (k1 k2 : Nat)
    (v1 v2 : Int) (val1Text val2Text : String) (args : List StreamArg) (w : World)
    (hk : k1 ≠ k2) (hargs : ∀ e ∈ args, KeepsCounters e) :
    (CHECK_ b site name (bump k1 v1) (bump k2 v2) val1Text val2Text args w).counters k1
        = w.counters k1 + 1
    ∧ (CHECK_ b site name (bump k1 v1) (bump k2 v2) val1Text val2Text args w).counters k2
        = w.counters k2 + 1
    ∧ ∀ k, k ≠ k1 → k ≠ k2 →
        (CHECK_ b site name (bump k1 v1) (bump k2 v2) val1Text val2Text args w).counters k
          = w.counters k := by
  have h : ∀ k,
      (CHECK_ b site name (bump k1 v1) (bump k2 v2) val1Text val2Text args w).counters k
        = w.counters k + (if k = k1 then 1 else 0) + (if k = k2 then 1 else 0) := by
    intro k
    rw [CHECK_, CHECK_OP_counters _ _ _ _ _ _ _ _ _ hargs, evalOperands_bump_counters _ _ _ _ _ _ hk]
  refine ⟨?_, ?_, ?_⟩
  · rw [h]; simp [hk]
  · rw [h]; simp [hk.symm]
  · intro k h1 h2; rw [h]; simp [h1, h2]

/-- Witness for C7: a failing `CHECK_LT(f(), g())` where `f` increments
counter 0 and returns 9, `g` increments counter 1 and returns 2. -/
theorem check_op_operands_once_witness :
    (0 : Nat) ≠ 1
    ∧ (∀ e ∈ [lit "x"], KeepsCounters e)
    ∧ (CHECK_ debugBuild site0 .LT (bump 0 9) (bump 1 2) "f()" "g()" [lit "x"] world0).counters 0
        = 1
    ∧ (CHECK_ debugBuild site0 .LT (bump 0 9) (bump 1 2) "f()" "g()" [lit "x"] world0).counters 1
        = 1 :=
  have h : ∀ e ∈ [lit "x"], KeepsCounters e := by
    intro e he
    rw [List.mem_singleton] at he
    subst he
    exact keepsCounters_lit "x"
  have t := check_op_operands_once debugBuild site0 .LT 0 1 9 2 "f()" "g()" [lit "x"] world0
    (by decide) h
  ⟨by decide, h, t.1, t.2.1⟩

theorem VCEF_LOG_eval (b : Build) (site : Site) (N : LevelArg) (args : List StreamArg)
    (w : World) :
    VCEF_LOG b site N args w
      = if N.value ≤ (GetVlogLevel site.file w).1 then VCEF_LOG_STREAM b site N args w
        else w := by
  rw [VCEF_LOG, LAZY_STREAM_eval, VCEF_LOG_IS_ON_eval]
  simp

theorem VCEF_LOG_IF_eval (b : Build) (site : Site) (N : LevelArg) (c : Bool)
    (args : List StreamArg) (w : World) :
    VCEF_LOG_IF b site N (lit c) args w
      = if N.value ≤ (GetVlogLevel site.file w).1 ∧ c = true then
          VCEF_LOG_STREAM b site N args w
        else w := by
  rw [VCEF_LOG_IF, LAZY_STREAM_eval, land_lit_eval _ _ _ rfl, VCEF_LOG_IS_ON_eval]
  simp

theorem VCEF_LOG_sink (b : Build) (site : Site) (N : LevelArg) (args : List StreamArg)
    (hargs : ∀ e ∈ args, KeepsSink e) (w : World) :
    (VCEF_LOG b site N args w).sink.length
      = w.sink.length + (if N.value ≤ (GetVlogLevel site.file w).1 then 1 else 0) := by
  rw [VCEF_LOG_eval]
  split
  · exact streamStmt_sink _ args (fun _ => rfl) hargs w
  · rfl

/-- C8: with `v` the value `GetVlogLevel(__FILE__)` returns when the statement
runs, `VCEF_LOG(N)` builds one record when `N <= v` and otherwise does
nothing, and `VCEF_LOG_IF(N, c)` builds one record when `N <= v` and `c` hold
and otherwise does nothing.  When one call site runs twice, first under
ceiling `v1` and then under ceiling `v2`, the first run is decided by
`N <= v1` and the second by `N <= v2`.  The streamed expressions are any
expressions that do not log themselves; `N` is the level argument as written
at the call site and `N.value` its value. -/
theorem verbosity_gate (b : Build) (site : Site) (N : LevelArg) (c : Bool)
    (args : List StreamArg) (w : World) (v1 v2 : Int) (hargs : ∀ e ∈ args, KeepsSink e) :
    ((VCEF_LOG b site N args w).sink.length
        = w.sink.length + (if N.value ≤ (GetVlogLevel site.file w).1 then 1 else 0))
    ∧ (¬ N.value ≤ (GetVlogLevel site.file w).1 → VCEF_LOG b site N args w = w)
    ∧ ((VCEF_LOG_IF b site N (lit c) args w).sink.length
        = w.sink.length
          + (if N.value ≤ (GetVlogLevel site.file w).1 ∧ c = true then 1 else 0))
    ∧ (¬ (N.value ≤ (GetVlogLevel site.file w).1 ∧ c = true)
        → VCEF_LOG_IF b site N (lit c) args w = w)
    ∧ ((VCEF_LOG b site N args (setVlogLevel v1 w)).sink.length
        = w.sink.length + (if N.value ≤ v1 then 1 else 0))
    ∧ ((VCEF_LOG b site N args
          (setVlogLevel v2 (VCEF_LOG b site N args (setVlogLevel v1 w)))).sink.length
        = (VCEF_LOG b site N args (setVlogLevel v1 w)).sink.length
          + (if N.value ≤ v2 then 1 else 0)) := by
  refine ⟨VCEF_LOG_sink b site N args hargs w, ?_, ?_, ?_, ?_, ?_⟩
  · intro h; rw [VCEF_LOG_eval, if_neg h]
  · rw [VCEF_LOG_IF_eval]
    split
    · exact streamStmt_sink _ args (fun _ => rfl) hargs w
    · rfl
  · intro h; rw [VCEF_LOG_IF_eval, if_neg h]
  · exact VCEF_LOG_sink b site N args hargs (setVlogLevel v1 w)
  · exact VCEF_LOG_sink b site N args hargs
      (setVlogLevel v2 (VCEF_LOG b site N args (setVlogLevel v1 w)))

/-- Witness for C8: `VCEF_LOG(2)` at one call site, first under ceiling 1
(nothing is built), then under ceiling 2 (one record is built). -/
theorem verbosity_gate_witness :
    (∀ e ∈ [lit "x"], KeepsSink e)
    ∧ (VCEF_LOG releaseBuild site0 (.atom 2) [lit "x"] (setVlogLevel 1 world0)).sink.length = 0
    ∧ (VCEF_LOG releaseBuild site0 (.atom 2) [lit "x"]
          (setVlogLevel 2
            (VCEF_LOG releaseBuild site0 (.atom 2) [lit "x"] (setVlogLevel 1 world0)))).sink.length
        = 1 :=
  have h : ∀ e ∈ [lit "x"], KeepsSink e := by
    intro e he
    rw [List.mem_singleton] at he
    subst he
    exact keepsSink_lit "x"
  have t := verbosity_gate releaseBuild site0 (.atom 2) true [lit "x"] world0 1 2 h
  ⟨h, t.2.2.2.2.1.trans (by decide), t.2.2.2.2.2.trans (by decide)⟩

/-- C9: when `DCHECK_IS_ON()` is 0, which is exactly when `NDEBUG` is defined
and `DCHECK_ALWAYS_ON` is not, `DCHECK(condition)`, `DPCHECK(condition)` and
`DCHECK_EQ/NE/LE/LT/GE/GT(val1, val2)` leave the whole state as it was, for
every condition, all operands and every minimum log level: the sink receives
no record, `MakeCheckOpString` allocates nothing, and the process is not
terminated. -/
theorem dcheck_disabled_is_inert (b : Build) (site : Site) (conditionText : String)
    (condition : Expr Bool) (name : CheckName) (val1 val2 : Expr Int)
    (val1Text val2Text : String) (args : List StreamArg) (w : World)
    (hoff : DCHECK_IS_ON b = false) :
    (b.ndebug = true ∧ b.dcheckAlwaysOn = false)
    ∧ DCHECK b site conditionText condition args w = w
    ∧ DPCHECK b site conditionText condition args w = w
    ∧ DCHECK_ b site name val1 val2 val1Text val2Text args w = w
    ∧ (DCHECK_ b site name val1 val2 val1Text val2Text args w).sink = w.sink
    ∧ (DCHECK_ b site name val1 val2 val1Text val2Text args w).allocated = w.allocated
    ∧ (DCHECK_ b site name val1 val2 val1Text val2Text args w).terminated = w.terminated := by
  have hop : DCHECK_ b site name val1 val2 val1Text val2Text args w = w := by
    simp [DCHECK_, DCHECK_OP, hoff]
  refine ⟨?_, ?_, ?_, hop, by rw [hop], by rw [hop], by rw [hop]⟩
  · unfold DCHECK_IS_ON at hoff
    cases hn : b.ndebug <;> cases ha : b.dcheckAlwaysOn <;> simp_all
  · simp [DCHECK, LAZY_STREAM, land, lit, hoff]
  · simp [DPCHECK, LAZY_STREAM, land, lit, hoff]

/-- Witness for C9: a release build, a failing condition and failing
operands, each of which would increment a counter if it were evaluated. -/
theorem dcheck_disabled_is_inert_witness :
    DCHECK_IS_ON releaseBuild = false
    ∧ (DCHECK releaseBuild site0 "f()" (bump 0 false) [] world0).sink = []
    ∧ (DCHECK_ releaseBuild site0 .EQ (bump 0 5) (bump 1 6) "f()" "g()" [] world0).allocated
        = 0 :=
  have t := dcheck_disabled_is_inert releaseBuild site0 "f()" (bump 0 false) .EQ (bump 0 5)
    (bump 1 6) "f()" "g()" [] world0 rfl
  ⟨rfl, by rw [t.2.1]; rfl, by rw [t.2.2.2.1]; rfl⟩

/-- C10 as stated fails: in a release build (`DCHECK_IS_ON()` is 0),
`DCHECK(condition)` with a condition that increments counter 0 leaves the
counter at 0, not at 1: in `DCHECK_IS_ON() && !(condition)` the right operand
of `&&` is not evaluated. -/
theorem dcheck_disabled_condition_counterexample :
    DCHECK_IS_ON releaseBuild = false
    ∧ (DCHECK releaseBuild site0 "f()" (bump 0 true) [] world0).counters 0 = 0
    ∧ (DCHECK releaseBuild site0 "f()" (bump 0 false) [] world0).counters 0 = 0
    ∧ (DCHECK releaseBuild site0 "f()" (bump 0 false) [] world0).counters 0
        ≠ world0.counters 0 + 1 := by
  refine ⟨rfl, rfl, rfl, by decide⟩

/-- C10, amended: when `DCHECK_IS_ON()` is 0, the condition expression of
`DCHECK(condition)` is not evaluated: for a condition that increments counter
`k`, one execution of `DCHECK(condition)` leaves counter `k`, and every
other counter, unchanged, and no record is built. -/
theorem dcheck_disabled_skips_condition (b : Build) (site : Site) (conditionText : String)
    (k : Nat) (c : Bool) (args : List StreamArg) (w : World)
    (hoff : DCHECK_IS_ON b = false) :
    (DCHECK b site conditionText (bump k c) args w).counters k = w.counters k
    ∧ (DCHECK b site conditionText (bump k c) args w).counters = w.counters
    ∧ (DCHECK b site conditionText (bump k c) args w).sink = w.sink := by
  have h : DCHECK b site conditionText (bump k c) args w = w := by
    simp [DCHECK, LAZY_STREAM, land, lit, hoff]
  refine ⟨by rw [h], by rw [h], by rw [h]⟩

/-- Witness for amended C10: a release build, a failing condition that would
increment counter 3. -/
theorem dcheck_disabled_skips_condition_witness :
    DCHECK_IS_ON releaseBuild = false
    ∧ (DCHECK releaseBuild site0 "f()" (bump 3 false) [] world0).counters 3
        = world0.counters 3 :=
  ⟨rfl, (dcheck_disabled_skips_condition releaseBuild site0 "f()" 3 false [] world0 rfl).1⟩

theorem land_gate_eval (a cond : Expr Bool) (w : World) (h : (a w).2 = w) :
    land a cond w = if (a w).1 = true then cond w else (false, w) := by
  unfold land
  cases hx : (a w).1 <;> simp [hx, h]

theorem PCEF_LOG_STREAM_sink (b : Build) (site : Site) (S : SeverityName)
    (args : List StreamArg) (hargs : ∀ e ∈ args, KeepsSink e) (w : World) :
    ∃ msg, (PCEF_LOG_STREAM b site S args w).sink = w.sink ++ [msg]
      ∧ msg.err_ = some w.lastError ∧ msg.severity_ = CEF_LOG_ b S := by
  obtain ⟨t, ht⟩ := streamStmt_sink_eq
    (fun w =>
      COMPACT_GOOGLE_CEF_LOG_EX_ b site
        (fun file line sev => ErrnoLogMessage.new b file line sev (GetLastSystemErrorCode w).1)
        S (GetLastSystemErrorCode w).2) args
    (by
      intro w1
      cases S <;>
        simp [COMPACT_GOOGLE_CEF_LOG_EX_, ErrnoLogMessage.new, LogMessage.new,
          GetLastSystemErrorCode]
      split <;> rfl)
    hargs w
  refine ⟨_, ht, ?_, ?_⟩
  · cases S <;>
      simp [COMPACT_GOOGLE_CEF_LOG_EX_, ErrnoLogMessage.new, LogMessage.new,
        GetLastSystemErrorCode]
    split <;> rfl
  · cases S <;>
      simp [COMPACT_GOOGLE_CEF_LOG_EX_, ErrnoLogMessage.new, LogMessage.new,
        GetLastSystemErrorCode, CEF_LOG_, CEF_LOG_DCHECK]
    split <;> rfl

theorem VPCEF_LOG_STREAM_sink (b : Build) (site : Site) (N : LevelArg)
    (args : List StreamArg) (hargs : ∀ e ∈ args, KeepsSink e) (w : World) :
    ∃ msg, (VPCEF_LOG_STREAM b site N args w).sink = w.sink ++ [msg]
      ∧ msg.err_ = some w.lastError ∧ msg.severity_ = N.negated := by
  obtain ⟨t, ht⟩ := streamStmt_sink_eq
    (fun w =>
      ErrnoLogMessage.new b site.file site.line N.negated (GetLastSystemErrorCode w).1
        (GetLastSystemErrorCode w).2) args (fun _ => rfl) hargs w
  exact ⟨_, ht, rfl, rfl⟩

/-- C11 as stated fails: with last-error value 0 on entry and a condition
that leaves it at 5, the records that `PCEF_LOG_IF`, `VPCEF_LOG_IF` and
`PCHECK` build carry the error code 5, not 0. -/
theorem error_capture_counterexample :
    (GetLastSystemErrorCode world0).1 = 0
    ∧ (PCEF_LOG_IF releaseBuild site0 .ERROR (setsLastError 5 true) [] world0).sink.map
        (fun msg => msg.err_) = [some 5]
    ∧ (VPCEF_LOG_IF releaseBuild site0 (.atom 0) (setsLastError 5 true) [] world0).sink.map
        (fun msg => msg.err_) = [some 5]
    ∧ (PCHECK releaseBuild site0 "f()" (setsLastError 5 false) [] world0).sink.map
        (fun msg => msg.err_) = [some 5]
    ∧ (PCHECK releaseBuild site0 "f()" (setsLastError 5 false) [] world0).sink.map
        (fun msg => msg.err_) ≠ [some 0] := by
  refine ⟨rfl, by decide, by decide, by decide, by decide⟩

/-- C11, amended: in `PCEF_LOG_IF(S, cond)`, `VPCEF_LOG_IF(N, cond)` and
`PCHECK(cond)` that proceed, the error code stored in the record is the
platform last-error value as it is after the condition argument was
evaluated: when evaluating `cond` leaves the last-error value at `e1`, the
one record built is constructed with `e1`, whatever the value on entry was.
The streamed expressions are any expressions that do not log themselves; `N`
is the level argument as written at the call site and `N.value` its value. -/
theorem error_captured_after_condition (b : Build) (site : Site) (S : SeverityName)
    (N : LevelArg) (conditionText : String) (e1 : Int) (args : List StreamArg) (w : World)
    (hargs : ∀ e ∈ args, KeepsSink e) :
    (CEF_LOG_ b S ≥ (GetMinLogLevel w).1 →
        ∃ msg, (PCEF_LOG_IF b site S (setsLastError e1 true) args w).sink = w.sink ++ [msg]
          ∧ msg.err_ = some e1)
    ∧ (N.value ≤ (GetVlogLevel site.file w).1 →
        ∃ msg, (VPCEF_LOG_IF b site N (setsLastError e1 true) args w).sink = w.sink ++ [msg]
          ∧ msg.err_ = some e1)
    ∧ (∃ msg, (PCHECK b site conditionText (setsLastError e1 false) args w).sink
          = w.sink ++ [msg] ∧ msg.err_ = some e1) := by
  refine ⟨?_, ?_, ?_⟩
  · intro hon
    have hon2 : (CEF_LOG_IS_ON b S w).1 = true := by
      simpa [CEF_LOG_IS_ON_eval, GetMinLogLevel] using hon
    obtain ⟨msg, h1, h2, _⟩ := PCEF_LOG_STREAM_sink b site S args hargs
      (setsLastError e1 true w).2
    refine ⟨msg, ?_, h2⟩
    rw [PCEF_LOG_IF, LAZY_STREAM_eval, land_gate_eval _ _ _ rfl, if_pos hon2]
    exact h1
  · intro hon
    have hon2 : (VCEF_LOG_IS_ON site N.value w).1 = true := by
      simpa [VCEF_LOG_IS_ON_eval] using hon
    obtain ⟨msg, h1, h2, _⟩ := VPCEF_LOG_STREAM_sink b site N args hargs
      (setsLastError e1 true w).2
    refine ⟨msg, ?_, h2⟩
    rw [VPCEF_LOG_IF, LAZY_STREAM_eval, land_gate_eval _ _ _ rfl, if_pos hon2]
    exact h1
  · obtain ⟨msg, h1, h2, _⟩ := PCEF_LOG_STREAM_sink b site .FATAL
      (lit ("Check failed: " ++ conditionText ++ ". ") :: args)
      (keepsSink_cons_lit _ args hargs) (setsLastError e1 false w).2
    refine ⟨msg, ?_, h2⟩
    rw [PCHECK, LAZY_STREAM_eval]
    exact h1

/-- Witness for amended C11: last-error value 0 on entry, a condition that
leaves it at 5, severity ERROR at minimum level WARNING. -/
theorem error_captured_after_condition_witness :
    (∀ e ∈ [lit "x"], KeepsSink e)
    ∧ CEF_LOG_ releaseBuild .ERROR ≥ (GetMinLogLevel world0).1
    ∧ ∃ msg, (PCEF_LOG_IF releaseBuild site0 .ERROR (setsLastError 5 true) [lit "x"]
          world0).sink = world0.sink ++ [msg] ∧ msg.err_ = some 5 :=
  have h : ∀ e ∈ [lit "x"], KeepsSink e := by
    intro e he
    rw [List.mem_singleton] at he
    subst he
    exact keepsSink_lit "x"
  ⟨h, by decide,
    (error_captured_after_condition releaseBuild site0 .ERROR (.atom 0) "f()" 5 [lit "x"] world0
      h).1 (by decide)⟩

/-- C12: `CEF_LOG_DFATAL` is `CEF_LOG_ERROR` (2) when `NDEBUG` is defined and
`CEF_LOG_FATAL` (3) when it is not, whatever `DCHECK_ALWAYS_ON` is;
`CEF_LOG_DCHECK` is `CEF_LOG_FATAL` when `DCHECK_IS_ON()` is 1 and
`CEF_LOG_INFO` (0) when it is 0; `DCHECK_IS_ON()` is 0 exactly when `NDEBUG`
is defined and `DCHECK_ALWAYS_ON` is not.  The statement
`CEF_LOG(DFATAL) << e1 << ... << en` does exactly what
`CEF_LOG(ERROR) << e1 << ... << en` does in a build with `NDEBUG` and what
`CEF_LOG(FATAL) << e1 << ... << en` does in a build without, and its gate is
the gate of that severity. -/
theorem pseudo_severities (b : Build) (site : Site) (args : List StreamArg) (w : World) :
    CEF_LOG_ERROR = 2 ∧ CEF_LOG_FATAL = 3 ∧ CEF_LOG_INFO = 0
    ∧ CEF_LOG_DFATAL b = (if b.ndebug = true then CEF_LOG_ERROR else CEF_LOG_FATAL)
    ∧ (∀ a : Bool, CEF_LOG_DFATAL { b with dcheckAlwaysOn := a } = CEF_LOG_DFATAL b)
    ∧ CEF_LOG_DCHECK b = (if DCHECK_IS_ON b = true then CEF_LOG_FATAL else CEF_LOG_INFO)
    ∧ (DCHECK_IS_ON b = false ↔ (b.ndebug = true ∧ b.dcheckAlwaysOn = false))
    ∧ CEF_LOG_IS_ON b .DFATAL w
        = (if b.ndebug = true then CEF_LOG_IS_ON b .ERROR w else CEF_LOG_IS_ON b .FATAL w)
    ∧ CEF_LOG b site .DFATAL args w
        = (if b.ndebug = true then CEF_LOG b site .ERROR args w
           else CEF_LOG b site .FATAL args w) := by
  refine ⟨rfl, rfl, rfl, ?_, fun _ => rfl, ?_, ?_, ?_, ?_⟩
  · unfold CEF_LOG_DFATAL
    cases b.ndebug <;> rfl
  · unfold CEF_LOG_DCHECK
    cases DCHECK_IS_ON b <;> rfl
  · unfold DCHECK_IS_ON
    cases b.ndebug <;> cases b.dcheckAlwaysOn <;> simp
  · cases h : b.ndebug <;> simp [CEF_LOG_IS_ON, CEF_LOG_, CEF_LOG_DFATAL, h]
  · cases h : b.ndebug
    · have hg : CEF_LOG_IS_ON b .DFATAL = CEF_LOG_IS_ON b .FATAL := by
        funext w1
        simp [CEF_LOG_IS_ON, CEF_LOG_, CEF_LOG_DFATAL, h]
      simp [CEF_LOG, CEF_LOG_STREAM, COMPACT_GOOGLE_CEF_LOG_, COMPACT_GOOGLE_CEF_LOG_EX_,
        CEF_LOG_DFATAL, h, hg]
    · have hg : CEF_LOG_IS_ON b .DFATAL = CEF_LOG_IS_ON b .ERROR := by
        funext w1
        simp [CEF_LOG_IS_ON, CEF_LOG_, CEF_LOG_DFATAL, h]
      simp [CEF_LOG, CEF_LOG_STREAM, COMPACT_GOOGLE_CEF_LOG_, COMPACT_GOOGLE_CEF_LOG_EX_,
        CEF_LOG_DFATAL, h, hg]

theorem streamArgs_text (args : List StreamArg) (msg : LogMessage) (w : World) :
    (streamArgs args msg w).1
      = { msg with stream_ := msg.stream_ ++ concatTexts (argTexts args w) } := by
  induction args generalizing msg w with
  | nil => simp [streamArgs, argTexts, concatTexts]
  | cons e es ih =>
    simp only [streamArgs, argTexts, concatTexts]
    rw [ih]
    simp [String.append_assoc]

theorem argTexts_lit (texts : List String) (w : World) :
    argTexts (texts.map lit) w = texts := by
  induction texts with
  | nil => rfl
  | cons t ts ih =>
    simp only [List.map, argTexts]
    exact congrArg (List.cons t) ih

theorem compact_new (b : Build) (site : Site) (S : SeverityName) (w : World) :
    COMPACT_GOOGLE_CEF_LOG_ b site S w
      = ({ severity_ := CEF_LOG_ b S, stream_ := "", file_ := site.file, line_ := site.line,
           result := none, last_error_ := SaveLastError b w, err_ := none }, w) := by
  cases S <;>
    simp [COMPACT_GOOGLE_CEF_LOG_, COMPACT_GOOGLE_CEF_LOG_EX_, LogMessage.new, CEF_LOG_,
      CEF_LOG_DCHECK]
  split <;> rfl

theorem streamStmt_new_sink (b : Build) (file : String) (line : Int) (sev : LogSeverity)
    (args : List StreamArg) (hargs : ∀ e ∈ args, KeepsSink e) (w : World) :
    (streamStmt (LogMessage.new b file line sev) args w).sink
      = w.sink ++ [{ severity_ := sev, stream_ := concatTexts (argTexts args w),
                     file_ := file, line_ := line, result := none,
                     last_error_ := SaveLastError b w, err_ := none }] := by
  have hs : (streamArgs args (LogMessage.new b file line sev w).1
      (LogMessage.new b file line sev w).2).2.sink = w.sink :=
    streamArgs_frame (fun x => x.sink) args hargs _ _
  simp only [streamStmt, LogMessage.destroy, hs, streamArgs_text]
  simp [LogMessage.new]

/-- C13: when `S >= GetMinLogLevel()`, the statement
`CEF_LOG(S) << e1 << ... << en` adds exactly one record to the sink; the
record carries the file name and line number of the call site and severity
`S`, and its text is the texts streamed by `e1 .. en` concatenated in that
order (for streamed values, their renderings).  The streamed expressions are
any expressions that do not log themselves. -/
theorem log_builds_one_record (b : Build) (site : Site) (S : SeverityName)
    (args : List StreamArg) (w : World)
    (hon : CEF_LOG_ b S ≥ (GetMinLogLevel w).1) (hargs : ∀ e ∈ args, KeepsSink e) :
    (CEF_LOG b site S args w).sink
        = w.sink ++ [{ severity_ := CEF_LOG_ b S, stream_ := concatTexts (argTexts args w),
                       file_ := site.file, line_ := site.line, result := none,
                       last_error_ := SaveLastError b w, err_ := none }]
    ∧ (CEF_LOG b site S args w).sink.length = w.sink.length + 1
    ∧ (∀ texts : List String, argTexts (texts.map lit) w = texts) := by
  have hon2 : CEF_LOG_ b S ≥ w.minLogLevel := hon
  have h1 : (CEF_LOG b site S args w).sink
      = w.sink ++ [{ severity_ := CEF_LOG_ b S, stream_ := concatTexts (argTexts args w),
                     file_ := site.file, line_ := site.line, result := none,
                     last_error_ := SaveLastError b w, err_ := none }] := by
    rw [CEF_LOG_eval, if_pos hon2, CEF_LOG_STREAM]
    have hc : COMPACT_GOOGLE_CEF_LOG_ b site S
        = LogMessage.new b site.file site.line (CEF_LOG_ b S) := by
      funext w1
      rw [compact_new]
      rfl
    rw [hc]
    exact streamStmt_new_sink b site.file site.line (CEF_LOG_ b S) args hargs w
  refine ⟨h1, ?_, fun texts => argTexts_lit texts w⟩
  rw [h1, List.length_append, List.length_singleton]

/-- Witness for C13: `CEF_LOG(ERROR) << "a" << "b"` at minimum level WARNING,
at line 42 of main.cc. -/
theorem log_builds_one_record_witness :
    CEF_LOG_ releaseBuild .ERROR ≥ (GetMinLogLevel world0).1
    ∧ (∀ e ∈ [lit "a", lit "b"], KeepsSink e)
    ∧ (CEF_LOG releaseBuild site0 .ERROR [lit "a", lit "b"] world0).sink
        = [{ severity_ := 2, stream_ := "ab", file_ := "main.cc", line_ := 42,
             result := none, last_error_ := none, err_ := none }] :=
  have h : ∀ e ∈ [lit "a", lit "b"], KeepsSink e := by
    intro e he
    simp only [List.mem_cons, List.mem_singleton, List.not_mem_nil, or_false] at he
    rcases he with rfl | rfl
    · exact keepsSink_lit "a"
    · exact keepsSink_lit "b"
  ⟨by decide, h,
    (log_builds_one_record releaseBuild site0 .ERROR [lit "a", lit "b"] world0
      (by decide) h).1.trans (by decide)⟩

theorem VPCEF_LOG_eval (b : Build) (site : Site) (N : LevelArg) (args : List StreamArg)
    (w : World) :
    VPCEF_LOG b site N args w
      = if N.value ≤ (GetVlogLevel site.file w).1 then VPCEF_LOG_STREAM b site N args w
        else w := by
  rw [VPCEF_LOG, LAZY_STREAM_eval, VCEF_LOG_IS_ON_eval]
  simp

/-- C14 as stated fails: under ceiling 1, `VCEF_LOG(1)`, `VCEF_LOG_IF(1, true)`
and `VPCEF_LOG(1)` each build a record of severity -1 (`CEF_LOG_VERBOSE`),
not 0 (`CEF_LOG_INFO`). -/
theorem verbose_severity_counterexample :
    CEF_LOG_INFO = 0
    ∧ (VCEF_LOG releaseBuild site0 (.atom 1) [] (setVlogLevel 1 world0)).sink.map
        (fun msg => msg.severity_) = [-1]
    ∧ (VCEF_LOG_IF releaseBuild site0 (.atom 1) (lit true) [] (setVlogLevel 1 world0)).sink.map
        (fun msg => msg.severity_) = [-1]
    ∧ (VPCEF_LOG releaseBuild site0 (.atom 1) [] (setVlogLevel 1 world0)).sink.map
        (fun msg => msg.severity_) = [-1]
    ∧ (VCEF_LOG releaseBuild site0 (.atom 1) [] (setVlogLevel 1 world0)).sink.map
        (fun msg => msg.severity_) ≠ [CEF_LOG_INFO] := by
  refine ⟨rfl, by decide, by decide, by decide, by decide⟩

theorem negInt_of_level (n : Int) (h0 : 0 ≤ n) (hmax : n ≤ INT_MAX) : negInt n = -n := by
  unfold INT_MAX at hmax
  unfold negInt wrapInt
  omega

/-- The level `1 + 1`, written without parentheses: the gate sees the value
2, and the record is built with severity `-1 + 1`, which is 0. -/
theorem verbose_level_sum_example :
    (LevelArg.binop (fun x y => x + y) (.atom 1) 1).value = 2
    ∧ (VCEF_LOG releaseBuild site0 (.binop (fun x y => x + y) (.atom 1) 1) []
          (setVlogLevel 2 world0)).sink.map (fun msg => msg.severity_) = [0]
    ∧ (VCEF_LOG releaseBuild site0 (.binop (fun x y => x + y) (.atom 1) 1) []
          (setVlogLevel 1 world0)).sink = [] := by
  refine ⟨by decide, by decide, by decide⟩

/-- C14, amended: for every verbosity level `n` with `0 <= n <= INT_MAX`,
written at the call site as a single operand, for which `VCEF_LOG(n)`,
`VCEF_LOG_IF(n, true)` or `VPCEF_LOG(n)` proceeds, the one record it builds
carries severity `-n`; that is `CEF_LOG_INFO` (0) exactly when `n` is 0.  The
streamed expressions are any expressions that do not log themselves. -/
theorem verbose_severity_is_negated_level (b : Build) (site : Site) (n : Int)
    (args : List StreamArg) (w : World) (h0 : 0 ≤ n) (hmax : n ≤ INT_MAX)
    (hon : n ≤ (GetVlogLevel site.file w).1) (hargs : ∀ e ∈ args, KeepsSink e) :
    (∃ msg, (VCEF_LOG b site (.atom n) args w).sink = w.sink ++ [msg]
          ∧ msg.severity_ = -n)
    ∧ (∃ msg, (VCEF_LOG_IF b site (.atom n) (lit true) args w).sink = w.sink ++ [msg]
          ∧ msg.severity_ = -n)
    ∧ (∃ msg, (VPCEF_LOG b site (.atom n) args w).sink = w.sink ++ [msg]
          ∧ msg.severity_ = -n)
    ∧ (-n = CEF_LOG_INFO ↔ n = 0) := by
  have hneg : (LevelArg.atom n).negated = -n := negInt_of_level n h0 hmax
  have hon2 : (LevelArg.atom n).value ≤ (GetVlogLevel site.file w).1 := hon
  refine ⟨?_, ?_, ?_, ?_⟩
  · rw [VCEF_LOG_eval, if_pos hon2, VCEF_LOG_STREAM]
    exact ⟨_, streamStmt_new_sink b site.file site.line _ args hargs w, hneg⟩
  · rw [VCEF_LOG_IF_eval, if_pos ⟨hon2, rfl⟩, VCEF_LOG_STREAM]
    exact ⟨_, streamStmt_new_sink b site.file site.line _ args hargs w, hneg⟩
  · rw [VPCEF_LOG_eval, if_pos hon2]
    obtain ⟨msg, h1, _, h3⟩ := VPCEF_LOG_STREAM_sink b site (.atom n) args hargs w
    exact ⟨msg, h1, h3.trans hneg⟩
  · simp [CEF_LOG_INFO]

/-- Witness for amended C14: `VCEF_LOG(2)` under ceiling 3. -/
theorem verbose_severity_is_negated_level_witness :
    (0 : Int) ≤ 2 ∧ (2 : Int) ≤ INT_MAX
    ∧ (2 : Int) ≤ (GetVlogLevel site0.file (setVlogLevel 3 world0)).1
    ∧ (∀ e ∈ ([] : List StreamArg), KeepsSink e)
    ∧ ∃ msg, (VCEF_LOG releaseBuild site0 (.atom 2) [] (setVlogLevel 3 world0)).sink
          = (setVlogLevel 3 world0).sink ++ [msg] ∧ msg.severity_ = -2 :=
  ⟨by decide, by decide, by decide, fun _ he => absurd he (List.not_mem_nil _),
    (verbose_severity_is_negated_level releaseBuild site0 2 [] (setVlogLevel 3 world0)
      (by decide) (by decide) (by decide) (fun _ he => absurd he (List.not_mem_nil _))).1⟩

theorem keepsSink_NOTIMPLEMENTED_MSG (compilerGcc : Bool) (prettyFunction : String) :
    ∀ e ∈ NOTIMPLEMENTED_MSG compilerGcc prettyFunction, KeepsSink e := by
  intro e he
  unfold NOTIMPLEMENTED_MSG at he
  cases compilerGcc <;> simp at he
  · subst he; exact keepsSink_lit _
  · rcases he with rfl | rfl <;> exact keepsSink_lit _

theorem NOTIMPLEMENTED_eval (b : Build) (site : Site) (compilerGcc : Bool)
    (prettyFunction : String) (args : List StreamArg) (logged_once : Bool) (w : World) :
    NOTIMPLEMENTED b site compilerGcc prettyFunction args logged_once w
      = (true,
          if CEF_LOG_ERROR ≥ w.minLogLevel ∧ logged_once = false then
            CEF_LOG_STREAM b site .ERROR (NOTIMPLEMENTED_MSG compilerGcc prettyFunction) w
          else w) := by
  have hnot : lnot (lit logged_once) = lit (!logged_once) := rfl
  simp only [NOTIMPLEMENTED, EAT_STREAM_PARAMETERS, if_true, hnot, CEF_LOG_IF_eval]
  cases logged_once <;> simp [CEF_LOG_]

theorem NOTIMPLEMENTED_first (b : Build) (site : Site) (compilerGcc : Bool)
    (prettyFunction : String) (args : List StreamArg) (w : World) :
    NOTIMPLEMENTED b site compilerGcc prettyFunction args false w
      = (true,
          if CEF_LOG_ERROR ≥ w.minLogLevel then
            CEF_LOG_STREAM b site .ERROR (NOTIMPLEMENTED_MSG compilerGcc prettyFunction) w
          else w) := by
  rw [NOTIMPLEMENTED_eval]
  simp

theorem runNotImplemented_logged (b : Build) (site : Site) (compilerGcc : Bool)
    (prettyFunction : String) (args : List StreamArg) (levels : List Int) (w : World) :
    (runNotImplemented b site compilerGcc prettyFunction args levels true w).1 = true
    ∧ (runNotImplemented b site compilerGcc prettyFunction args levels true w).2.sink
        = w.sink := by
  induction levels generalizing w with
  | nil => exact ⟨rfl, rfl⟩
  | cons m ms ih =>
    simp only [runNotImplemented, NOTIMPLEMENTED_eval]
    simpa using ih (setMinLogLevel m w)

/-- C15: one `NOTIMPLEMENTED()` call site under policy 5, executed any number
of times under any sequence of minimum log levels.  Over the whole sequence
at most one record is built.  After a first execution under minimum level `m`
and any further executions, `logged_once` is true and the sink has gained
exactly one record, of severity ERROR, when `ERROR >= m`, and nothing at all
otherwise.  Once `logged_once` is true, any further executions leave it true
and build nothing.  The operands streamed after the statement are never
evaluated, so they may be any expressions. -/
theorem notimplemented_logs_once (b : Build) (site : Site) (compilerGcc : Bool)
    (prettyFunction : String) (args : List StreamArg) (m : Int) (levels : List Int)
    (w : World) :
    (runNotImplemented b site compilerGcc prettyFunction args levels false w).2.sink.length
        ≤ w.sink.length + 1
    ∧ (runNotImplemented b site compilerGcc prettyFunction args (m :: levels) false w).1 = true
    ∧ (CEF_LOG_ERROR ≥ m →
        ∃ msg, (runNotImplemented b site compilerGcc prettyFunction args (m :: levels) false
            w).2.sink = w.sink ++ [msg] ∧ msg.severity_ = CEF_LOG_ERROR)
    ∧ (¬ CEF_LOG_ERROR ≥ m →
        (runNotImplemented b site compilerGcc prettyFunction args (m :: levels) false w).2.sink
          = w.sink)
    ∧ (runNotImplemented b site compilerGcc prettyFunction args levels true w).1 = true
    ∧ (runNotImplemented b site compilerGcc prettyFunction args levels true w).2.sink
        = w.sink := by
  have hfirst : ∀ (m1 : Int) (ms : List Int),
      (runNotImplemented b site compilerGcc prettyFunction args (m1 :: ms) false w).1 = true
      ∧ (runNotImplemented b site compilerGcc prettyFunction args (m1 :: ms) false w).2.sink
          = (if CEF_LOG_ERROR ≥ m1 then
              CEF_LOG_STREAM b site .ERROR (NOTIMPLEMENTED_MSG compilerGcc prettyFunction)
                (setMinLogLevel m1 w)
            else setMinLogLevel m1 w).sink := by
    intro m1 ms
    simp only [runNotImplemented, NOTIMPLEMENTED_first]
    exact runNotImplemented_logged b site compilerGcc prettyFunction args ms _
  have hrec : ∀ m1 : Int,
      ∃ msg, (CEF_LOG_STREAM b site .ERROR (NOTIMPLEMENTED_MSG compilerGcc prettyFunction)
          (setMinLogLevel m1 w)).sink = w.sink ++ [msg] ∧ msg.severity_ = CEF_LOG_ERROR := by
    intro m1
    obtain ⟨t, ht⟩ := streamStmt_sink_eq (COMPACT_GOOGLE_CEF_LOG_ b site .ERROR)
      (NOTIMPLEMENTED_MSG compilerGcc prettyFunction) (keepsSink_compact b site .ERROR)
      (keepsSink_NOTIMPLEMENTED_MSG compilerGcc prettyFunction) (setMinLogLevel m1 w)
    exact ⟨_, ht, rfl⟩
  refine ⟨?_, (hfirst m levels).1, ?_, ?_,
    runNotImplemented_logged b site compilerGcc prettyFunction args levels w⟩
  · cases levels with
    | nil => exact Nat.le_succ _
    | cons m1 ms =>
      rw [(hfirst m1 ms).2]
      split
      · obtain ⟨msg, h1, _⟩ := hrec m1
        rw [h1, List.length_append, List.length_singleton]
      · exact Nat.le_succ _
  · intro hm
    obtain ⟨msg, h1, h2⟩ := hrec m
    exact ⟨msg, by rw [(hfirst m levels).2, if_pos hm]; exact h1, h2⟩
  · intro hm
    rw [(hfirst m levels).2, if_neg hm]
    rfl

/-- Witness for C15: three executions, under minimum levels ERROR, INFO and
INFO, build one record (of severity ERROR, 2); three executions under minimum
levels FATAL, INFO and INFO build none. -/
theorem notimplemented_logs_once_witness :
    CEF_LOG_ERROR ≥ 2 ∧ ¬ CEF_LOG_ERROR ≥ 3
    ∧ (runNotImplemented releaseBuild site0 false "f" [bump 0 "x"] [2, 0, 0] false
          world0).2.sink.map (fun msg => msg.severity_) = [2]
    ∧ (runNotImplemented releaseBuild site0 false "f" [bump 0 "x"] [3, 0, 0] false
          world0).2.sink = [] := by
  have t := notimplemented_logs_once releaseBuild site0 false "f" [bump 0 "x"] 3 [0, 0] world0
  exact ⟨by decide, by decide, by decide, t.2.2.2.1 (by decide)⟩

theorem LogAtLevel_sink (b : Build) (headerFile : String) (log_level : Int) (msg : String)
    (w : World) :
    (LogAtLevel b headerFile log_level msg w).sink
      = w.sink ++ [{ severity_ := log_level, stream_ := msg, file_ := headerFile,
                     line_ := LogAtLevel_line, result := none,
                     last_error_ := SaveLastError b w, err_ := none }] := by
  have hargs : ∀ e ∈ [(lit (Streamable.render msg) : StreamArg)], KeepsSink e := by
    intro e he
    rw [List.mem_singleton] at he
    subst he
    exact keepsSink_lit _
  rw [LogAtLevel, streamStmt_new_sink b headerFile LogAtLevel_line log_level _ hargs w]
  simp [argTexts, concatTexts, lit, Streamable.render]

/-- C16: `LogAtLevel(log_level, msg)` adds exactly one record to the sink, of
severity `log_level` and with text exactly `msg`, for every `log_level`
(negative ones and ones below the minimum level included) and whatever the
minimum log level is.  So `LogAtLevel(S, msg)` and `CEF_LOG(S) << msg` differ
in the number of records they build exactly when `S < GetMinLogLevel()`. -/
theorem log_at_level_is_not_gated (b : Build) (headerFile : String) (log_level : Int)
    (msg : String) (site : Site) (S : SeverityName) (m : Int) (w : World) :
    (LogAtLevel b headerFile log_level msg w).sink
        = w.sink ++ [{ severity_ := log_level, stream_ := msg, file_ := headerFile,
                       line_ := LogAtLevel_line, result := none,
                       last_error_ := SaveLastError b w, err_ := none }]
    ∧ (LogAtLevel b headerFile log_level msg (setMinLogLevel m w)).sink
        = (LogAtLevel b headerFile log_level msg w).sink
    ∧ (LogAtLevel b headerFile log_level msg w).sink.length = w.sink.length + 1
    ∧ ((LogAtLevel b headerFile (CEF_LOG_ b S) msg w).sink.length
          ≠ (CEF_LOG b site S [lit msg] w).sink.length
        ↔ CEF_LOG_ b S < (GetMinLogLevel w).1) := by
  have hlen : ∀ l : Int, (LogAtLevel b headerFile l msg w).sink.length = w.sink.length + 1 := by
    intro l
    rw [LogAtLevel_sink, List.length_append, List.length_singleton]
  refine ⟨LogAtLevel_sink b headerFile log_level msg w, ?_, hlen log_level, ?_⟩
  · rw [LogAtLevel_sink, LogAtLevel_sink]
    rfl
  · have hargs : ∀ e ∈ [(lit msg : StreamArg)], KeepsSink e := by
      intro e he
      rw [List.mem_singleton] at he
      subst he
      exact keepsSink_lit _
    have hlog : (CEF_LOG b site S [lit msg] w).sink.length
        = w.sink.length + (if CEF_LOG_ b S ≥ w.minLogLevel then 1 else 0) := by
      rw [CEF_LOG_eval]
      split
      · exact streamStmt_sink (COMPACT_GOOGLE_CEF_LOG_ b site S) _
          (keepsSink_compact b site S) hargs w
      · rfl
    rw [hlen, hlog]
    simp only [GetMinLogLevel]
    by_cases h : CEF_LOG_ b S ≥ w.minLogLevel
    · simp [h]
    · simp [h, not_le.mp h]

end cef.logging
